import Mathlib

set_option maxRecDepth 100000

/-!
# Shallow embedding of the deep-chip CHIP-8 interpreter core

This file translates the execution engine of the repository (src/lib.rs,
src/memory.rs, src/display.rs, src/quirks.rs) into Lean definitions and
proves properties of the engine against them.

Conventions of the embedding:
* machine integers (`u8`, `u16`, `u32`) are `Nat` values; arithmetic that can
  wrap in the source (release-mode `+=` on `u16`/`u32`, `wrapping_add`,
  `overflowing_add`/`overflowing_sub`, `<<`) carries an explicit `% 2^w`;
* fixed arrays and `Vec`s are `List`s; Rust indexing that cannot go out of
  bounds in the source (register file `V[x]` with `x < 16`, the 16-entry
  keypad) is `List.getD` / `List.set`; indexing that *can* panic in the
  source (the return-address stack, RAM addresses derived from the index
  register, the persistent-flag array, the pixel buffer inside the sprite
  loop, the program-load slice copy) is modeled as a fallible operation
  returning `Option`, where `none` stands for a Rust panic;
* the random byte drawn by `rand::thread_rng().gen::<u8>()` in the `Cxnn`
  arm is passed in as an explicit `rnd` argument (used as `rnd % 256`);
* the file I/O of `load_persistent_flags` / `save_persistent_flags`
  ("flags.dat") is external to the engine: the flags loaded at construction
  time are a parameter of the SUPER-CHIP constructor, and saving is modeled
  as succeeding without any effect on engine state.
-/

/-- The desired quirks of the CHIP-8 interpreter (src/quirks.rs).

The `lowres_scroll` field is referenced by `Chip8::execute_instruction`
(`self.quirks.lowres_scroll`) but does not appear in the `Quirks` struct of
src/quirks.rs. Modelled from the spec: the spec's design notes direct an
implementer to "treat it as a configurable boolean defaulting to false
pending clarification", so it is carried here as a seventh field that every
named preset sets to `false`. -/
structure Quirks where
  /-- If true, the 8xy1, 8xy2 and 8xy3 opcodes will set VF to 0. -/
  bitwise_reset_vf : Bool
  /-- If true, 8xy6/8xyE shift Vx in place; otherwise they shift Vy into Vx. -/
  direct_shifting : Bool
  /-- If true, Fx55/Fx65 do not modify I; otherwise I becomes I + x + 1. -/
  save_load_increment : Bool
  /-- If true, Bnnn jumps to nnn + Vx; otherwise to nnn + V0. -/
  jump_to_x : Bool
  /-- If true, Dxyn waits for a vblank interrupt before drawing. -/
  wait_for_vblank : Bool
  /-- If true, Dxyn clips sprites at the screen edge instead of wrapping. -/
  edge_clipping : Bool
  /-- Scroll amount is halved in low-resolution mode (see docstring above). -/
  lowres_scroll : Bool
deriving DecidableEq

/-- The quirks of the original CHIP-8 implementation on the COSMAC-VIP. -/
def Quirks.vip_chip : Quirks :=
  { bitwise_reset_vf := true
    direct_shifting := false
    save_load_increment := false
    jump_to_x := false
    wait_for_vblank := true
    edge_clipping := true
    lowres_scroll := false }

/-- The default quirk configuration of the Octo CHIP-8 emulator. -/
def Quirks.octo_chip : Quirks :=
  { bitwise_reset_vf := false
    direct_shifting := false
    save_load_increment := false
    jump_to_x := false
    wait_for_vblank := false
    edge_clipping := false
    lowres_scroll := false }

/-- The quirks of the SUPER-CHIP 1.1. -/
def Quirks.super_chip1_1 : Quirks :=
  { bitwise_reset_vf := false
    direct_shifting := true
    save_load_increment := true
    jump_to_x := true
    wait_for_vblank := false
    edge_clipping := true
    lowres_scroll := false }

/-- Determines what CHIP-8 variant to run as (src/quirks.rs). -/
inductive Variant where
  | CHIP8
  | SCHIP11
  | XOCHIP
deriving DecidableEq

/-- Check whether the variant supports all features introduced by SUPER-CHIP. -/
def Variant.supports_schip : Variant → Bool
  | Variant.CHIP8 => false
  | Variant.SCHIP11 => true
  | Variant.XOCHIP => true

/-- The memory of the CHIP-8: 4KB of RAM (src/memory.rs). -/
structure Memory where
  ram : List Nat
deriving DecidableEq

/-- The text font stored in reserved memory (16 glyphs x 5 bytes). -/
def CHIP8_FONT : List Nat :=
  [0xF0, 0x90, 0x90, 0x90, 0xF0,
   0x20, 0x60, 0x20, 0x20, 0x70,
   0xF0, 0x10, 0xF0, 0x80, 0xF0,
   0xF0, 0x10, 0xF0, 0x10, 0xF0,
   0x90, 0x90, 0xF0, 0x10, 0x10,
   0xF0, 0x80, 0xF0, 0x10, 0xF0,
   0xF0, 0x80, 0xF0, 0x90, 0xF0,
   0xF0, 0x10, 0x20, 0x40, 0x40,
   0xF0, 0x90, 0xF0, 0x90, 0xF0,
   0xF0, 0x90, 0xF0, 0x10, 0xF0,
   0xF0, 0x90, 0xF0, 0x90, 0x90,
   0xE0, 0x90, 0xE0, 0x90, 0xE0,
   0xF0, 0x80, 0x80, 0x80, 0xF0,
   0xE0, 0x90, 0x90, 0x90, 0xE0,
   0xF0, 0x80, 0xF0, 0x80, 0xF0,
   0xF0, 0x80, 0xF0, 0x80, 0x80]

/-- `Memory::new`: zeroed RAM with the font copied to bytes [0, 80). -/
def Memory.new : Memory :=
  ⟨CHIP8_FONT ++ List.replicate (4096 - 16 * 5) 0⟩

/-- `Memory::reset`: rewrite all of RAM, re-stamping the font. -/
def Memory.reset (_m : Memory) : Memory := Memory.new

/-- `Memory::load_program`: copy `rom` into RAM starting at 0x200.
The source performs `ram[0x200..0x200+rom.len()].copy_from_slice(rom)`,
which panics (`none`) when the program exceeds the remaining capacity. -/
def Memory.load_program (m : Memory) (rom : List Nat) : Option Memory :=
  if 0x200 + rom.length ≤ m.ram.length then
    some ⟨m.ram.take 0x200 ++ rom ++ m.ram.drop (0x200 + rom.length)⟩
  else none

/-- `Memory::read_opcode`: two consecutive bytes composed big-endian.
Callers only invoke this at addresses `≤ len - 2` (the `execute_cycle`
guard), where `getD` coincides with the source's panicking index. -/
def Memory.read_opcode (m : Memory) (address : Nat) : Nat :=
  (m.ram.getD address 0) <<< 8 ||| m.ram.getD (address + 1) 0

/-- `Chip8::write_byte` resolves to `self.memory.ram[address] = value`;
the index panics (`none`) beyond the end of RAM. -/
def Memory.write_byte (m : Memory) (address value : Nat) : Option Memory :=
  if address < m.ram.length then some ⟨m.ram.set address value⟩ else none

/-- `Chip8::read_byte` resolves to `self.memory.ram[address]`;
the index panics (`none`) beyond the end of RAM. -/
def Memory.read_byte (m : Memory) (address : Nat) : Option Nat :=
  m.ram.get? address

/-- A monochrome pixel bitmap (src/display.rs). -/
structure Display where
  pixels : List Bool
deriving DecidableEq

/-- The direction where to shift the screen. -/
inductive ScrollDirection where
  | Right
  | Left
  | Down

/-- `Display::small`: 64x32 pixels. -/
def Display.small : Display := ⟨List.replicate (64 * 32) false⟩

/-- `Display::big`: 128x64 pixels. -/
def Display.big : Display := ⟨List.replicate (128 * 64) false⟩

/-- `Display::clear`: turn off all pixels (`self.pixels.fill(false)`). -/
def Display.clear (d : Display) : Display :=
  ⟨List.replicate d.pixels.length false⟩

/-- One move of the scroll loops: `pixels[dst] = pixels[src]; pixels[src] = false`.
Indices are in bounds whenever the buffer has length width*height, as in
every reachable state, so the total `set`/`getD` form coincides with the
source. -/
def scrollMove (px : List Bool) (src dst : Nat) : List Bool :=
  (px.set dst (px.getD src false)).set src false

/-- `Display::scroll`: shift the pixel grid by `amount`, filling with black. -/
def Display.scroll (d : Display) (direction : ScrollDirection) (amount : Nat)
    (highres scroll_quirk : Bool) : Display :=
  let amount := if scroll_quirk && !highres then amount / 2 else amount
  let width := if highres then 128 else 64
  let height := if highres then 64 else 32
  match direction with
  | ScrollDirection.Right =>
      ⟨(List.range height).foldl (fun px y =>
        ((List.range' amount (width - amount)).reverse).foldl (fun px x =>
          scrollMove px (x - amount + y * width) (x + y * width)) px) d.pixels⟩
  | ScrollDirection.Left =>
      ⟨(List.range height).foldl (fun px y =>
        (List.range (width - amount)).foldl (fun px x =>
          scrollMove px (x + amount + y * width) (x + y * width)) px) d.pixels⟩
  | ScrollDirection.Down =>
      ⟨((List.range' amount (height - amount)).reverse).foldl (fun px y =>
        (List.range width).foldl (fun px x =>
          scrollMove px (x + (y - amount) * width) (x + y * width)) px) d.pixels⟩

/-- The CHIP-8 interpreter context (src/lib.rs). -/
structure Chip8 where
  /-- 16 general purpose 8-bit registers; VF is used as a flag. -/
  V : List Nat
  /-- The address register (16-bit, only the lowest 12 bits are used). -/
  I : Nat
  /-- The program counter (16-bit). -/
  program_counter : Nat
  /-- The stack pointer (8-bit). -/
  stack_pointer : Nat
  /-- The delay timer. -/
  delay : Nat
  /-- The sound timer. -/
  sound : Nat
  /-- 4KB of RAM. -/
  memory : Memory
  /-- The monochrome display. -/
  display : Display
  /-- Whether the 128x64 resolution is selected. -/
  highres : Bool
  /-- 16 keys corresponding to hex digits. -/
  keypad : List Bool
  /-- Stores return addresses for subroutines. -/
  stack : List Nat
  /-- What kind of CHIP-8 variant to run as. -/
  variant : Variant
  /-- The desired implementation quirks. -/
  quirks : Quirks
  /-- Sound will play if true. -/
  sound_on : Bool
  /-- The size of the stack: 12 in CHIP-8 mode, 16 in SCHIP mode. -/
  stack_size : Nat
  /-- The current cycle in a frame (u32). -/
  frame_cycle : Nat
  /-- How many cycles to execute in one frame. -/
  execution_speed : Nat
  /-- Whether the interpreter is executing instructions. -/
  running : Bool
  /-- If the interpreter halts, a message explaining why. -/
  halt_message : Option String
  /-- If true (and the quirk is enabled), the display is ready for drawing. -/
  vblank : Bool
  /-- True if waiting for a key press with the Fx0A instruction. -/
  awaiting_key : Bool
  /-- The register to which the awaited key will be saved (Fx0A). -/
  key_destination : Nat
  /-- Runtime storage for the Fx75/Fx85 instructions of SUPER-CHIP. -/
  persistent_flags : List Nat
deriving DecidableEq

/-- `Chip8::chip8`: a CHIP-8 interpreter with the COSMAC-VIP quirks. -/
def Chip8.chip8 : Chip8 :=
  { V := List.replicate 16 0
    I := 0
    program_counter := 0x200
    stack_pointer := 0
    delay := 0
    sound := 0
    memory := Memory.new
    display := Display.small
    highres := false
    keypad := List.replicate 16 false
    stack := List.replicate 12 0
    variant := Variant.CHIP8
    quirks := Quirks.vip_chip
    sound_on := true
    stack_size := 12
    frame_cycle := 0
    execution_speed := 15
    running := false
    halt_message := none
    vblank := true
    awaiting_key := false
    key_destination := 0
    persistent_flags := List.replicate 8 0 }

/-- `Chip8::super_chip1_1`: a SUPER-CHIP 1.1 interpreter. The source
initializes `persistent_flags` from the "flags.dat" file
(`Chip8::load_persistent_flags`); the loaded flags are passed in here as a
parameter since file contents are external to the engine. -/
def Chip8.super_chip1_1 (loaded_flags : List Nat) : Chip8 :=
  { V := List.replicate 16 0
    I := 0
    program_counter := 0x200
    stack_pointer := 0
    delay := 0
    sound := 0
    memory := Memory.new
    display := Display.big
    highres := false
    keypad := List.replicate 16 false
    stack := List.replicate 16 0
    variant := Variant.SCHIP11
    quirks := Quirks.super_chip1_1
    sound_on := true
    stack_size := 16
    frame_cycle := 0
    execution_speed := 30
    running := false
    halt_message := none
    vblank := true
    awaiting_key := false
    key_destination := 0
    persistent_flags := loaded_flags }

/-- `Chip8::reset`: set registers and timers to zero, clear the stack,
screen and RAM. Note which fields the source does *not* touch: `variant`,
`quirks`, `sound_on`, `stack_size`, `execution_speed`, `running`,
`key_destination`, `persistent_flags`. -/
def Chip8.reset (s : Chip8) : Chip8 :=
  { s with
    V := List.replicate 16 0
    I := 0
    program_counter := 0x200
    stack_pointer := 0
    delay := 0
    sound := 0
    memory := s.memory.reset
    display := s.display.clear
    highres := false
    keypad := List.replicate 16 false
    stack := List.replicate s.stack_size 0
    awaiting_key := false
    frame_cycle := 0
    vblank := true
    halt_message := none }

/-- `Chip8::start`: set `running` to true. -/
def Chip8.start (s : Chip8) : Chip8 := { s with running := true }

/-- `Chip8::stop`: set `running` to false. -/
def Chip8.stop (s : Chip8) : Chip8 := { s with running := false }

/-- `Chip8::set_flag`: set the VF register. -/
def Chip8.set_flag (s : Chip8) (value : Nat) : Chip8 :=
  { s with V := s.V.set 0xF value }

/-- `Chip8::increment_program_counter`: move the program counter to the next
instruction. The source's `+= 2` on a `u16` is wrapping in release builds. -/
def Chip8.increment_program_counter (s : Chip8) : Chip8 :=
  { s with program_counter := (s.program_counter + 2) % 65536 }

/-- `Chip8::update_timers`: saturating decrement of both timers. -/
def Chip8.update_timers (s : Chip8) : Chip8 :=
  { s with delay := s.delay - 1, sound := s.sound - 1 }

/-- `Chip8::get_current_opcode`. -/
def Chip8.get_current_opcode (s : Chip8) : Nat :=
  s.memory.read_opcode s.program_counter

/-- `Chip8::load_program`: reset memory and load a program starting at
0x200. `none` models the panic of the source's unchecked slice copy. -/
def Chip8.load_program (s : Chip8) (program : List Nat) : Option Chip8 :=
  (s.memory.reset.load_program program).map fun m => { s with memory := m }

/-- `Chip8::set_vblank`. -/
def Chip8.set_vblank (s : Chip8) : Chip8 := { s with vblank := true }

/-- `Chip8::set_keys`: overwrite the keypad state wholesale. -/
def Chip8.set_keys (s : Chip8) (keys : List Bool) : Chip8 :=
  { s with keypad := keys }

/-- `Chip8::save_awaited_key`: store the resolved key into the destination
register and leave the awaiting state. -/
def Chip8.save_awaited_key (s : Chip8) (key : Nat) : Chip8 :=
  { s with V := s.V.set s.key_destination key, awaiting_key := false }

/-- `Chip8::tick_frame`: decrement timers, set vblank, reset the frame-cycle
counter. -/
def Chip8.tick_frame (s : Chip8) : Chip8 :=
  { s.update_timers.set_vblank with frame_cycle := 0 }

/-- `Chip8::halt`: stop execution and record a diagnostic message. -/
def Chip8.halt (s : Chip8) (reason : String) : Chip8 :=
  { s.stop with halt_message := some reason }

/-! ## Instruction decode (fixed bit-masking, src/lib.rs lines 285-291) -/

/-- `let addr = opcode & 0x0FFF`. -/
def opAddr (op : Nat) : Nat := op &&& 0x0FFF
/-- `let x = (opcode & 0x0F00) >> 8`. -/
def opX (op : Nat) : Nat := (op &&& 0x0F00) >>> 8
/-- `let y = (opcode & 0x00F0) >> 4`. -/
def opY (op : Nat) : Nat := (op &&& 0x00F0) >>> 4
/-- `let byte = (opcode & 0x00FF)`. -/
def opByte (op : Nat) : Nat := op &&& 0x00FF
/-- `let nibble = (opcode & 0x000F)`. -/
def opNib (op : Nat) : Nat := op &&& 0x000F
/-- `opcode >> 12`, the primary dispatch nibble. -/
def opTop (op : Nat) : Nat := op >>> 12

/-! ## The diagnostic messages of the halt arms -/

/-- One uppercase hexadecimal digit. -/
def hexDigit (n : Nat) : Char :=
  if n = 0 then '0' else if n = 1 then '1' else if n = 2 then '2'
  else if n = 3 then '3' else if n = 4 then '4' else if n = 5 then '5'
  else if n = 6 then '6' else if n = 7 then '7' else if n = 8 then '8'
  else if n = 9 then '9' else if n = 10 then 'A' else if n = 11 then 'B'
  else if n = 12 then 'C' else if n = 13 then 'D' else if n = 14 then 'E'
  else 'F'

/-- The `{:04X}` rendering of a 16-bit opcode. -/
def toHex4 (n : Nat) : String :=
  ⟨[hexDigit (n / 4096 % 16), hexDigit (n / 256 % 16),
    hexDigit (n / 16 % 16), hexDigit (n % 16)]⟩

/-- `format!("Illegal instruction: {:04X}", opcode)`. -/
def illegalMsg (op : Nat) : String :=
  "Illegal instruction: " ++ toHex4 op

/-- `format!("Machine code routines are not supported: {:04X}. Try a
different CHIP-8 variant.", opcode)`. -/
def machineMsg (op : Nat) : String :=
  "Machine code routines are not supported: " ++ toHex4 op
    ++ ". Try a different CHIP-8 variant."

/-! ## The Dxyn / Dxy0 sprite-draw loops (src/lib.rs lines 476-585) -/

/-- The inner pixel loop over one sprite byte: for each cell index,
optionally `break` on the edge-clipping quirk, then XOR the sprite bit into
the pixel buffer, recording whether an on-pixel was overwritten. `base` is 0
for 8-wide rows and 8 for the second byte of a 16x16 row (the source shifts
by `cell` resp. `cell - 8`). A pixel index beyond the buffer would panic in
the source (`none`); it is only reachable from states whose buffer length
disagrees with the selected resolution. -/
def drawCells (q : Quirks) (w h dx dy row sb base : Nat) :
    List Nat → List Bool × Bool → Option (List Bool × Bool)
  | [], acc => some acc
  | cell :: rest, (px, overlap) =>
    if q.edge_clipping = true ∧ (w - 1 < dx % w + cell ∨ h - 1 < dy % h + row) then
      some (px, overlap)
    else
      let target := (dx + cell) % w + (dy + row) % h * w
      if sb &&& (128 >>> (cell - base)) ≠ 0 then
        match px.get? target with
        | some cur =>
          drawCells q w h dx dy row sb base rest (px.set target (!cur), overlap || cur)
        | none => none
      else drawCells q w h dx dy row sb base rest (px, overlap)

/-- The row loop of the 8xN draw (`for row in 0..nibble`): read the sprite
byte at `I + row` (panicking beyond RAM) and run the cell loop. -/
def drawRows8 (q : Quirks) (w h dx dy : Nat) (ram : List Nat) (iReg : Nat) :
    List Nat → List Bool × Bool → Option (List Bool × Bool)
  | [], acc => some acc
  | row :: rest, acc =>
    match ram.get? (iReg + row) with
    | some sb =>
      match drawCells q w h dx dy row sb 0 (List.range' 0 8) acc with
      | none => none
      | some acc' => drawRows8 q w h dx dy ram iReg rest acc'
    | none => none

/-- The row loop of the SUPER-CHIP 16x16 draw (`for row in 0..16`): each row
reads the bytes at `I + row*2` and `I + row*2 + 1` and runs the cell loop
for cells 0..8 and 8..16. -/
def drawRows16 (q : Quirks) (w h dx dy : Nat) (ram : List Nat) (iReg : Nat) :
    List Nat → List Bool × Bool → Option (List Bool × Bool)
  | [], acc => some acc
  | row :: rest, acc =>
    match ram.get? (iReg + row * 2) with
    | some sb =>
      match drawCells q w h dx dy row sb 0 (List.range' 0 8) acc with
      | none => none
      | some acc' =>
        match ram.get? (iReg + row * 2 + 1) with
        | some sb2 =>
          match drawCells q w h dx dy row sb2 8 (List.range' 8 8) acc' with
          | none => none
          | some acc2 => drawRows16 q w h dx dy ram iReg rest acc2
        | none => none
    | none => none

/-! ## `Chip8::execute_instruction` (src/lib.rs lines 280-665)

The body of the source is one big `match` whose arms either fall through to
the trailing `self.increment_program_counter()` or `return` early.
`executeArms` yields the state produced by the matched arm together with an
`early` flag that is `true` exactly for the source's early `return`s
(jump, call, return, jump-with-offset, and the vblank-deferred draw);
`executeInstruction` then applies the trailing increment to the non-early
results. `none` models a Rust panic inside an arm. -/

/-- The conditional-skip pattern of the 3xnn/4xnn/5xy0/9xy0/Ex9E/ExA1 arms:
advance the program counter by one extra instruction when the test holds. -/
def skip_if (s : Chip8) (cond : Prop) [Decidable cond] : Chip8 :=
  if cond then s.increment_program_counter else s

/-- The 8xy1 arm: `V[x] |= V[y]`, then VF is zeroed under the
bitwise-reset quirk. -/
def alu_or (s : Chip8) (x y : Nat) : Chip8 :=
  let s1 := { s with V := s.V.set x (s.V.getD x 0 ||| s.V.getD y 0) }
  if s1.quirks.bitwise_reset_vf = true then s1.set_flag 0 else s1

/-- The 8xy2 arm: `V[x] &= V[y]`, then VF is zeroed under the
bitwise-reset quirk. -/
def alu_and (s : Chip8) (x y : Nat) : Chip8 :=
  let s1 := { s with V := s.V.set x (s.V.getD x 0 &&& s.V.getD y 0) }
  if s1.quirks.bitwise_reset_vf = true then s1.set_flag 0 else s1

/-- The 8xy3 arm: `V[x] ^= V[y]`, then VF is zeroed under the
bitwise-reset quirk. -/
def alu_xor (s : Chip8) (x y : Nat) : Chip8 :=
  let s1 := { s with V := s.V.set x (s.V.getD x 0 ^^^ s.V.getD y 0) }
  if s1.quirks.bitwise_reset_vf = true then s1.set_flag 0 else s1

/-- The 8xy4 arm: `(V[x], flag) = V[x].overflowing_add(V[y])`, then VF is
set to 1 on overflow and 0 otherwise. -/
def alu_add (s : Chip8) (x y : Nat) : Chip8 :=
  let sum := s.V.getD x 0 + s.V.getD y 0
  let s' := { s with V := s.V.set x (sum % 256) }
  if 255 < sum then s'.set_flag 1 else s'.set_flag 0

/-- The 8xy5 arm: `(V[x], flag) = V[x].overflowing_sub(V[y])` (wrapping
byte subtraction), then VF is set to 0 on underflow and 1 otherwise. -/
def alu_sub (s : Chip8) (x y : Nat) : Chip8 :=
  let underflow := s.V.getD x 0 < s.V.getD y 0
  let s' := { s with V := s.V.set x ((s.V.getD x 0 + 256 - s.V.getD y 0) % 256) }
  if underflow then s'.set_flag 0 else s'.set_flag 1

/-- The 8xy7 arm: `(V[x], flag) = V[y].overflowing_sub(V[x])`. -/
def alu_subn (s : Chip8) (x y : Nat) : Chip8 :=
  let underflow := s.V.getD y 0 < s.V.getD x 0
  let s' := { s with V := s.V.set x ((s.V.getD y 0 + 256 - s.V.getD x 0) % 256) }
  if underflow then s'.set_flag 0 else s'.set_flag 1

/-- The 8xy6 arm: copy Vy into Vx unless the direct-shifting quirk is on,
then shift Vx right by one and put the shifted-out bit into VF. -/
def alu_shr (s : Chip8) (x y : Nat) : Chip8 :=
  let s1 := if s.quirks.direct_shifting = false
    then { s with V := s.V.set x (s.V.getD y 0) } else s
  let shifted := s1.V.getD x 0 &&& 1
  let s2 := { s1 with V := s1.V.set x (s1.V.getD x 0 >>> 1) }
  s2.set_flag shifted

/-- The 8xyE arm: copy Vy into Vx unless the direct-shifting quirk is on,
then shift Vx left by one (wrapping u8) and put the shifted-out bit into VF. -/
def alu_shl (s : Chip8) (x y : Nat) : Chip8 :=
  let s1 := if s.quirks.direct_shifting = false
    then { s with V := s.V.set x (s.V.getD y 0) } else s
  let shifted := s1.V.getD x 0 &&& 128
  let s2 := { s1 with V := s1.V.set x ((s1.V.getD x 0 <<< 1) % 256) }
  s2.set_flag (shifted >>> 7)

def executeArms (s : Chip8) (op rnd : Nat) : Option (Chip8 × Bool) :=
  if opTop op = 0x0 then
    -- Reached empty code, just stop
    if op = 0 then some (s.stop, false)
    -- 00Cn - Scroll down by n pixels (SUPER-CHIP)
    else if s.variant.supports_schip = true ∧ opY op = 0xC then
      some ({ s with display := (s.display.scroll ScrollDirection.Down (opNib op)
                s.highres s.quirks.lowres_scroll) }, false)
    -- 00E0 - Clear the screen
    else if opByte op = 0xE0 then some ({ s with display := s.display.clear }, false)
    -- 00EE - Return from subroutine (early return; saturating pointer decrement,
    -- then a stack read that panics when the pointer is outside the stack)
    else if opByte op = 0xEE then
      if hsp : s.stack_pointer - 1 < s.stack.length then
        some ({ s with
                 stack_pointer := s.stack_pointer - 1
                 program_counter := s.stack.get ⟨s.stack_pointer - 1, hsp⟩ }, true)
      else none
    -- 00FF - Enable high resolution mode (SUPER-CHIP)
    else if opByte op = 0xFF ∧ s.variant.supports_schip = true then
      some ({ s with highres := true }, false)
    -- 00FE - Disable high resolution mode (SUPER-CHIP)
    else if opByte op = 0xFE ∧ s.variant.supports_schip = true then
      some ({ s with highres := false }, false)
    -- 00FB - Scroll the display 4 pixels right (SUPER-CHIP)
    else if opByte op = 0xFB ∧ s.variant.supports_schip = true then
      some ({ s with display := (s.display.scroll ScrollDirection.Right 4
                s.highres s.quirks.lowres_scroll) }, false)
    -- 00FC - Scroll the display 4 pixels left (SUPER-CHIP)
    else if opByte op = 0xFC ∧ s.variant.supports_schip = true then
      some ({ s with display := (s.display.scroll ScrollDirection.Left 4
                s.highres s.quirks.lowres_scroll) }, false)
    -- 00FD - Exit the interpreter (SUPER-CHIP)
    else if opByte op = 0xFD ∧ s.variant.supports_schip = true then
      some (s.stop.reset, false)
    else some (s.halt (machineMsg op), false)
  -- 1nnn - Jump to nnn (early return)
  else if opTop op = 0x1 then
    some ({ s with program_counter := opAddr op }, true)
  -- 2nnn - Call subroutine at nnn (early return): the stack write panics
  -- when the pointer is at or beyond the stack length; the pointer
  -- increment is `saturating_add(1)` on a u8
  else if opTop op = 0x2 then
    if s.stack_pointer < s.stack.length then
      some ({ s with
        stack := s.stack.set s.stack_pointer ((s.program_counter + 2) % 65536)
        stack_pointer := min (s.stack_pointer + 1) 255
        program_counter := opAddr op }, true)
    else none
  -- 3xnn - Skip if Vx == nn
  else if opTop op = 0x3 then
    some (skip_if s (s.V.getD (opX op) 0 = opByte op), false)
  -- 4xnn - Skip if Vx != nn
  else if opTop op = 0x4 then
    some (skip_if s (s.V.getD (opX op) 0 ≠ opByte op), false)
  -- 5xy0 - Skip if Vx == Vy
  else if opTop op = 0x5 ∧ opNib op = 0 then
    some (skip_if s (s.V.getD (opX op) 0 = s.V.getD (opY op) 0), false)
  -- 6xnn - Set Vx = nn
  else if opTop op = 0x6 then
    some ({ s with V := s.V.set (opX op) (opByte op) }, false)
  -- 7xnn - Set Vx += nn (wrapping add)
  else if opTop op = 0x7 then
    some ({ s with V := s.V.set (opX op) ((s.V.getD (opX op) 0 + opByte op) % 256) }, false)
  else if opTop op = 0x8 then
    -- 8xy0 - Set Vx = Vy
    if opNib op = 0x0 then
      some ({ s with V := s.V.set (opX op) (s.V.getD (opY op) 0) }, false)
    -- 8xy1 - Set Vx |= Vy, set VF to 0 (quirk)
    else if opNib op = 0x1 then some (alu_or s (opX op) (opY op), false)
    -- 8xy2 - Set Vx &= Vy, set VF to 0 (quirk)
    else if opNib op = 0x2 then some (alu_and s (opX op) (opY op), false)
    -- 8xy3 - Set Vx ^= Vy, set VF to 0 (quirk)
    else if opNib op = 0x3 then some (alu_xor s (opX op) (opY op), false)
    -- 8xy4 - Set Vx += Vy (overflowing_add), VF = 1 on overflow else 0
    else if opNib op = 0x4 then some (alu_add s (opX op) (opY op), false)
    -- 8xy5 - Set Vx -= Vy (overflowing_sub), VF = 0 on underflow else 1
    else if opNib op = 0x5 then some (alu_sub s (opX op) (opY op), false)
    -- 8xy6 - Set Vx = Vy >> 1 (or Vx >>= 1 under the quirk), VF = shifted-out bit
    else if opNib op = 0x6 then some (alu_shr s (opX op) (opY op), false)
    -- 8xy7 - Set Vx = Vy - Vx (overflowing_sub), VF = 0 on underflow else 1
    else if opNib op = 0x7 then some (alu_subn s (opX op) (opY op), false)
    -- 8xyE - Set Vx = Vy << 1 (or Vx <<= 1 under the quirk), VF = shifted-out bit
    else if opNib op = 0xE then some (alu_shl s (opX op) (opY op), false)
    else some (s.halt (illegalMsg op), false)
  -- 9xy0 - Skip if Vx != Vy
  else if opTop op = 0x9 ∧ opNib op = 0 then
    some (skip_if s (s.V.getD (opX op) 0 ≠ s.V.getD (opY op) 0), false)
  -- Annn - Set I to nnn
  else if opTop op = 0xA then
    some ({ s with I := opAddr op }, false)
  -- Bnnn - Jump to nnn + V0, or to nnn + Vx under the quirk (early return)
  else if opTop op = 0xB then
    some ({ s with program_counter :=
      (opAddr op + (if s.quirks.jump_to_x = true then s.V.getD (opX op) 0
        else s.V.getD 0 0)) % 65536 }, true)
  -- Cxnn - Set Vx = a random value & nn
  else if opTop op = 0xC then
    some ({ s with V := s.V.set (opX op) ((rnd % 256) &&& opByte op) }, false)
  -- Dxy0 - Draw 16x16 sprite at Vx, Vy from address I (SUPER-CHIP);
  -- the width/height of the selected resolution are written inline
  else if opTop op = 0xD ∧ s.variant.supports_schip = true ∧ opNib op = 0 then
    if s.quirks.wait_for_vblank = true ∧ s.vblank = false then some (s, true)
    else
      (drawRows16 s.quirks (if s.highres then 128 else 64) (if s.highres then 64 else 32)
          (s.V.getD (opX op) 0) (s.V.getD (opY op) 0) s.memory.ram s.I
          (List.range' 0 16) (s.display.pixels, false)).map fun r =>
        ({ s with
           display := ⟨r.1⟩
           V := s.V.set 0xF (if r.2 then 1 else 0)
           vblank := false }, false)
  -- Dxyn - Draw 8xn sprite at Vx, Vy from address I,
  -- optionally deferred until a vblank interrupt (quirk; early return)
  else if opTop op = 0xD then
    if s.quirks.wait_for_vblank = true ∧ s.vblank = false then some (s, true)
    else
      (drawRows8 s.quirks (if s.highres then 128 else 64) (if s.highres then 64 else 32)
          (s.V.getD (opX op) 0) (s.V.getD (opY op) 0) s.memory.ram s.I
          (List.range' 0 (opNib op)) (s.display.pixels, false)).map fun r =>
        ({ s with
           display := ⟨r.1⟩
           V := s.V.set 0xF (if r.2 then 1 else 0)
           vblank := false }, false)
  else if opTop op = 0xE then
    -- Ex9E - Skip if key Vx is down
    if opByte op = 0x9E then
      some (skip_if s (s.keypad.getD (s.V.getD (opX op) 0 &&& 0xF) false = true), false)
    -- ExA1 - Skip if key Vx is up
    else if opByte op = 0xA1 then
      some (skip_if s (s.keypad.getD (s.V.getD (opX op) 0 &&& 0xF) false = false), false)
    else some (s.halt (illegalMsg op), false)
  else if opTop op = 0xF then
    -- Fx07 - Set Vx to delay
    if opByte op = 0x07 then some ({ s with V := s.V.set (opX op) s.delay }, false)
    -- Fx0A - Wait for a key press and save it to Vx
    else if opByte op = 0x0A then
      some ({ s with awaiting_key := true, key_destination := opX op }, false)
    -- Fx15 - Set delay to Vx
    else if opByte op = 0x15 then some ({ s with delay := s.V.getD (opX op) 0 }, false)
    -- Fx18 - Set sound to Vx
    else if opByte op = 0x18 then some ({ s with sound := s.V.getD (opX op) 0 }, false)
    -- Fx1E - Set I += Vx (wrapping u16 add)
    else if opByte op = 0x1E then
      some ({ s with I := (s.I + s.V.getD (opX op) 0) % 65536 }, false)
    -- Fx29 - Set I to the font sprite address for Vx lowest nibble
    else if opByte op = 0x29 then
      some ({ s with I := (s.V.getD (opX op) 0 &&& 0xF) * 5 }, false)
    -- Fx30 - Set I to the large font sprite address (SUPER-CHIP)
    else if opByte op = 0x30 ∧ s.variant.supports_schip = true then
      some ({ s with I := (s.V.getD (opX op) 0 &&& 0xF) * 10 + 16 * 5 }, false)
    -- Fx33 - Write Vx as BCD to I, I+1 and I+2
    else if opByte op = 0x33 then
      ((s.memory.write_byte (s.I % 65536) (s.V.getD (opX op) 0 / 100)).bind fun m1 =>
       (m1.write_byte ((s.I + 1) % 65536) (s.V.getD (opX op) 0 / 10 % 10)).bind fun m2 =>
        m2.write_byte ((s.I + 2) % 65536) (s.V.getD (opX op) 0 % 100 % 10)).map
        fun m => ({ s with memory := m }, false)
    -- Fx55 - Write V0..Vx to I..I+x, optionally incrementing I (quirk)
    else if opByte op = 0x55 then
      ((List.range' 0 (opX op + 1)).foldlM
          (fun (m : Memory) i => m.write_byte ((s.I + i) % 65536) (s.V.getD i 0)) s.memory).map
        fun m => ({ s with
          memory := m
          I := if s.quirks.save_load_increment = false then (s.I + opX op + 1) % 65536 else s.I }, false)
    -- Fx65 - Read I..I+x into V0..Vx, optionally incrementing I (quirk)
    else if opByte op = 0x65 then
      ((List.range' 0 (opX op + 1)).foldlM
          (fun (v : List Nat) i => (s.memory.read_byte ((s.I + i) % 65536)).map fun b => v.set i b) s.V).map
        fun v => ({ s with
          V := v
          I := if s.quirks.save_load_increment = false then (s.I + opX op + 1) % 65536 else s.I }, false)
    -- Fx75 - Save V0..Vx to persistent storage (SUPER-CHIP); the flag array
    -- has 8 entries, so x >= 8 panics; the file write is external I/O and is
    -- modeled as succeeding without engine-state effect
    else if opByte op = 0x75 ∧ s.variant.supports_schip = true then
      if opX op < 8 then
        some ({ s with persistent_flags := ((List.range' 0 (opX op + 1)).foldl
          (fun f i => f.set i (s.V.getD i 0)) s.persistent_flags) }, false)
      else none
    -- Fx85 - Load V0..Vx from persistent storage (SUPER-CHIP); x >= 8 panics
    else if opByte op = 0x85 ∧ s.variant.supports_schip = true then
      if opX op < 8 then
        some ({ s with V := ((List.range' 0 (opX op + 1)).foldl
          (fun v i => v.set i (s.persistent_flags.getD i 0)) s.V) }, false)
      else none
    else some (s.halt (illegalMsg op), false)
  else some (s.halt (illegalMsg op), false)

/-- `Chip8::execute_instruction`: suppressed entirely while awaiting a key;
otherwise runs the matched arm and applies the trailing
`increment_program_counter` unless the arm returned early. -/
def executeInstruction (s : Chip8) (op rnd : Nat) : Option Chip8 :=
  if s.awaiting_key = true then some s
  else (executeArms s op rnd).map fun r =>
    if r.2 then r.1 else r.1.increment_program_counter

/-- `Chip8::execute_cycle`: clear the halt message, auto-stop within 2 bytes
of the end of memory, otherwise count the cycle and fetch-execute the
opcode at the program counter. -/
def executeCycle (s : Chip8) (rnd : Nat) : Option Chip8 :=
  let s := { s with halt_message := none }
  if s.memory.ram.length - 2 ≤ s.program_counter then some s.stop
  else
    let s := { s with frame_cycle := (s.frame_cycle + 1) % 4294967296 }
    executeInstruction s s.get_current_opcode rnd

/-! ## Generic list lemmas used throughout the development -/

/-! ### Specification-side definitions used by the claim theorems -/

/-- A state halted by an illegal opcode (0xFFFF is illegal in every
variant), reached organically from a fresh interpreter. -/
def c3halted : Option Chip8 := executeInstruction Chip8.chip8 0xFFFF 0

/-- The awaiting state produced organically by executing the key-wait
opcode Fx0A (here F10A) on a fresh interpreter. -/
def c4awaiting : Option Chip8 := executeInstruction Chip8.chip8 0xF10A 0

/-- The engine-visible state components that `Chip8::reset` reinitializes:
registers, index register, program counter, stack pointer, timers, memory,
display, resolution, keypad, stack, awaiting-key flag, frame-cycle counter,
vblank flag, halt message, plus the construction-time `variant` and
`stack_size`. (`running`, `key_destination`, `quirks`, `sound_on`,
`execution_speed` and `persistent_flags` are deliberately *not* listed:
reset preserves them, so they can disagree with a fresh interpreter.) -/
def engineView (s : Chip8) :
    List Nat × Nat × Nat × Nat × Nat × Nat × Memory × Display × Bool ×
      List Bool × List Nat × Bool × Nat × Bool × Option String × Variant × Nat :=
  (s.V, s.I, s.program_counter, s.stack_pointer, s.delay, s.sound, s.memory,
   s.display, s.highres, s.keypad, s.stack, s.awaiting_key, s.frame_cycle,
   s.vblank, s.halt_message, s.variant, s.stack_size)

/-- The claim's add example state: V0 = 0xFF, V1 = 0x01. -/
def c1sAdd : Chip8 :=
  { Chip8.chip8 with V := ((List.replicate 16 0).set 0 0xFF).set 1 0x01 }

/-- The claim's subtract example state: V0 = 0x01, V1 = 0x02. -/
def c1sSub : Chip8 :=
  { Chip8.chip8 with V := ((List.replicate 16 0).set 0 0x01).set 1 0x02 }

/-- The classification itself; see the section comment. -/
def masterP (s : Chip8) (op : Nat) (t : Chip8) (early : Bool) : Prop :=
  (early = false ∧ t.stack_pointer = s.stack_pointer ∧ t.stack = s.stack ∧
    t.stack_size = s.stack_size ∧
    (t.program_counter = s.program_counter ∨
      t.program_counter = (s.program_counter + 2) % 65536)) ∨
  ((opTop op = 0x1 ∨ opTop op = 0xB) ∧ early = true ∧
    t.stack_pointer = s.stack_pointer ∧ t.stack = s.stack ∧
    t.stack_size = s.stack_size) ∨
  (opTop op = 0x2 ∧ early = true ∧ s.stack_pointer < s.stack.length ∧
    t.stack_pointer = min (s.stack_pointer + 1) 255 ∧
    t.stack.length = s.stack.length ∧ t.stack_size = s.stack_size) ∨
  (opTop op = 0x0 ∧ opByte op = 0xEE ∧ early = true ∧
    s.stack_pointer - 1 < s.stack.length ∧
    t.stack_pointer = s.stack_pointer - 1 ∧ t.stack = s.stack ∧
    t.stack_size = s.stack_size) ∨
  (opTop op = 0x0 ∧ opByte op = 0xFD ∧ s.variant.supports_schip = true ∧
    early = false ∧ t = s.stop.reset) ∨
  (opTop op = 0xD ∧ s.quirks.wait_for_vblank = true ∧ s.vblank = false ∧
    early = true ∧ t = s)

/-- `n` consecutive executions of the call opcode 0x2200 (call 0x200, which
leaves the program counter at 0x200) from a fresh baseline interpreter. -/
def c2calls (n : Nat) : Option Chip8 :=
  (List.range n).foldlM (fun s _ => executeInstruction s 0x2200 0) Chip8.chip8

/-- The opcodes on which `execute_instruction` reaches one of its halt
arms, read off the fall-through structure of the dispatch: a class-0 opcode
that is none of 0x0000 / 00Cn (SUPER-CHIP) / 00E0 / 00EE / 00FF / 00FE /
00FB / 00FC / 00FD (the last five SUPER-CHIP-gated); a class-8 opcode with
an unknown low nibble; 5xy* / 9xy* with a nonzero low nibble; a class-E
opcode other than Ex9E/ExA1; and a class-F opcode with an unknown low byte
(where Fx30/Fx75/Fx85 are SUPER-CHIP-gated). -/
def isIllegal (v : Variant) (op : Nat) : Prop :=
  (opTop op = 0x0 ∧ op ≠ 0 ∧ ¬(v.supports_schip = true ∧ opY op = 0xC) ∧
    opByte op ≠ 0xE0 ∧ opByte op ≠ 0xEE ∧
    ¬(opByte op = 0xFF ∧ v.supports_schip = true) ∧
    ¬(opByte op = 0xFE ∧ v.supports_schip = true) ∧
    ¬(opByte op = 0xFB ∧ v.supports_schip = true) ∧
    ¬(opByte op = 0xFC ∧ v.supports_schip = true) ∧
    ¬(opByte op = 0xFD ∧ v.supports_schip = true)) ∨
  (opTop op = 0x5 ∧ opNib op ≠ 0) ∨
  (opTop op = 0x8 ∧ opNib op ≠ 0x0 ∧ opNib op ≠ 0x1 ∧ opNib op ≠ 0x2 ∧
    opNib op ≠ 0x3 ∧ opNib op ≠ 0x4 ∧ opNib op ≠ 0x5 ∧ opNib op ≠ 0x6 ∧
    opNib op ≠ 0x7 ∧ opNib op ≠ 0xE) ∨
  (opTop op = 0x9 ∧ opNib op ≠ 0) ∨
  (opTop op = 0xE ∧ opByte op ≠ 0x9E ∧ opByte op ≠ 0xA1) ∨
  (opTop op = 0xF ∧ opByte op ≠ 0x07 ∧ opByte op ≠ 0x0A ∧ opByte op ≠ 0x15 ∧
    opByte op ≠ 0x18 ∧ opByte op ≠ 0x1E ∧ opByte op ≠ 0x29 ∧
    ¬(opByte op = 0x30 ∧ v.supports_schip = true) ∧
    opByte op ≠ 0x33 ∧ opByte op ≠ 0x55 ∧ opByte op ≠ 0x65 ∧
    ¬(opByte op = 0x75 ∧ v.supports_schip = true) ∧
    ¬(opByte op = 0x85 ∧ v.supports_schip = true))

def togglePix (px : List Bool) (t : Nat) : List Bool :=
  px.set t (!(px.getD t false))

def drawTarget (w h dx dy row cell : Nat) : Nat :=
  (dx + cell) % w + (dy + row) % h * w

def spriteBit (sb cell : Nat) : Bool :=
  decide (sb &&& (128 >>> cell) ≠ 0)

def rowTargets (w h dx dy row sb : Nat) : List Nat :=
  ((List.range' 0 8).filter (spriteBit sb)).map (drawTarget w h dx dy row)

def spriteTargets (w h dx dy : Nat) (ram : List Nat) (iReg n : Nat) : List Nat :=
  (List.range' 0 n).flatMap fun row => rowTargets w h dx dy row (ram.getD (iReg + row) 0)

lemma getD_set_self {α : Type} (l : List α) (i : Nat) (a d : α)
    (h : i < l.length) : (l.set i a).getD i d = a := by
  rw [List.getD_eq_getElem (l.set i a) d (by simpa using h)]
  exact List.getElem_set_self _

lemma getD_set_ne {α : Type} (l : List α) (i j : Nat) (a d : α)
    (h : i ≠ j) : (l.set i a).getD j d = l.getD j d := by
  by_cases hj : j < l.length
  · rw [List.getD_eq_getElem (l.set i a) d (by simpa using hj),
      List.getD_eq_getElem l d hj]
    exact List.getElem_set_ne h _
  · rw [List.getD_eq_default (l.set i a) d (by simpa using Nat.le_of_not_lt hj),
      List.getD_eq_default l d (Nat.le_of_not_lt hj)]

lemma getD_replicate_of_lt {α : Type} (n i : Nat) (a d : α) (h : i < n) :
    (List.replicate n a).getD i d = a := by
  rw [List.getD_eq_getElem (List.replicate n a) d (by simpa using h)]
  exact List.getElem_replicate ..

/-! ## Decode bounds -/

lemma opX_lt (op : Nat) : opX op < 16 := by
  have h1 : op &&& 0x0F00 ≤ 0x0F00 := Nat.and_le_right
  have h2 : (op &&& 0x0F00) >>> 8 ≤ 0x0F00 >>> 8 := by
    simpa [Nat.shiftRight_eq_div_pow] using Nat.div_le_div_right (c := 256) h1
  exact Nat.lt_of_le_of_lt h2 (by decide)

lemma opY_lt (op : Nat) : opY op < 16 := by
  have h1 : op &&& 0x00F0 ≤ 0x00F0 := Nat.and_le_right
  have h2 : (op &&& 0x00F0) >>> 4 ≤ 0x00F0 >>> 4 := by
    simpa [Nat.shiftRight_eq_div_pow] using Nat.div_le_div_right (c := 16) h1
  exact Nat.lt_of_le_of_lt h2 (by decide)

lemma opNib_lt (op : Nat) : opNib op < 16 :=
  Nat.lt_of_le_of_lt (Nat.and_le_right) (by norm_num)

/-! ## Evaluation lemmas for concrete states

The logical `List.length` of the 4096-byte RAM cannot be reduced
element-by-element inside proofs, so the concrete scenarios below go
through these rewriting lemmas instead. -/

lemma CHIP8_FONT_length : CHIP8_FONT.length = 80 := by simp [CHIP8_FONT]

lemma memory_new_ram_length : Memory.new.ram.length = 4096 := by
  show (CHIP8_FONT ++ List.replicate (4096 - 16 * 5) 0).length = 4096
  rw [List.length_append, CHIP8_FONT_length, List.length_replicate]

lemma chip8_ram_length : Chip8.chip8.memory.ram.length = 4096 :=
  memory_new_ram_length

lemma getD_replicate_same {α : Type} (n i : Nat) (a : α) :
    (List.replicate n a).getD i a = a := by
  by_cases h : i < n
  · exact getD_replicate_of_lt n i a a h
  · rw [List.getD_eq_default]
    simpa using Nat.le_of_not_lt h

/-- Reads of the fresh RAM beyond the font region yield 0. -/
lemma memory_new_getD (a : Nat) (h : 80 ≤ a) :
    Memory.new.ram.getD a 0 = 0 := by
  unfold Memory.new
  rw [List.getD_append_right _ _ _ _ (le_of_eq_of_le CHIP8_FONT_length h)]
  exact getD_replicate_same ..

/-- Opcode fetches from the fresh RAM beyond the font region yield 0. -/
lemma memory_new_read_opcode (a : Nat) (h : 80 ≤ a) :
    Memory.new.read_opcode a = 0 := by
  unfold Memory.read_opcode
  rw [memory_new_getD a h, memory_new_getD (a + 1) (by omega)]
  decide

/-- `execute_cycle` below the end-of-memory cutoff: clear the halt message,
count the cycle, then fetch and dispatch. -/
lemma executeCycle_of_lt (s : Chip8) (rnd : Nat)
    (h : s.program_counter < s.memory.ram.length - 2) :
    executeCycle s rnd =
      executeInstruction { s with
        halt_message := none
        frame_cycle := (s.frame_cycle + 1) % 4294967296 }
        s.get_current_opcode rnd := by
  unfold executeCycle
  rw [if_neg (by simpa using Nat.not_le.mpr h)]
  rfl

/-! ## C9 — program-load capacity overflow -/

/-- C9: the claim says an oversized program load "fails with a detectable
load error surfaced to the driver, rather than crashing". The source's
`Memory::load_program` performs an unchecked slice copy
`ram[0x200..0x200+rom.len()].copy_from_slice(rom)`, which panics — a crash,
not a surfaced error value (`none` in this embedding models the panic).
A 3585-byte program (one past the 4096 − 0x200 = 3584-byte capacity) panics,
while a 3584-byte program still loads. -/
theorem c9_oversized_load_panics :
    Chip8.load_program Chip8.chip8 (List.replicate 3585 0) = none ∧
    (Chip8.load_program Chip8.chip8 (List.replicate 3584 0)).isSome = true := by
  have hres : Chip8.chip8.memory.reset = Memory.new := rfl
  constructor
  · unfold Chip8.load_program
    rw [hres]
    unfold Memory.load_program
    rw [memory_new_ram_length, List.length_replicate]
    norm_num
  · unfold Chip8.load_program
    rw [hres]
    unfold Memory.load_program
    rw [memory_new_ram_length, List.length_replicate]
    norm_num

/-! ## C3 — halting is not terminal under `execute_cycle` -/

/-- C3 counterexample: the claim says that once `halt_message` is set it
"remains set until the explicit reset operation, which alone clears it" for
every subsequent sequence of public operations. But the public operation
`execute_cycle` unconditionally clears `halt_message` at the start of every
invocation (src/lib.rs line 265): after halting on the illegal opcode
0xFFFF, one `execute_cycle` (which here executes the 0x0000 arm) leaves
`halt_message = none` without any reset. -/
theorem c3_halt_cleared_by_cycle_cex :
    c3halted.map Chip8.halt_message = some (some "Illegal instruction: FFFF") ∧
    (c3halted.bind (fun s => executeCycle s 0)).map Chip8.halt_message =
      some none := by
  have hstep : c3halted =
      some ((Chip8.chip8.halt (illegalMsg 0xFFFF)).increment_program_counter) := rfl
  constructor
  · rw [hstep]
    decide
  · rw [hstep, Option.some_bind]
    rw [executeCycle_of_lt _ 0 (by
      have h1 : ((Chip8.chip8.halt (illegalMsg 0xFFFF)).increment_program_counter).memory.ram.length = 4096 :=
        chip8_ram_length
      have h2 : ((Chip8.chip8.halt (illegalMsg 0xFFFF)).increment_program_counter).program_counter = 514 := rfl
      omega)]
    rw [show ((Chip8.chip8.halt (illegalMsg 0xFFFF)).increment_program_counter).get_current_opcode = 0 from
      memory_new_read_opcode 514 (by norm_num)]
    decide

/-- C3 amended: once halted, `halt_message` is preserved by the public
operations `start`, `stop`, `set_vblank`, `set_keys`, `save_awaited_key`,
`update_timers`, `tick_frame` and `load_program`; `reset` clears it — but so
does `execute_cycle`, which resets it at the start of every invocation
(see the counterexample), so halting is terminal only for drivers that
consult `is_running` before cycling, as the repository's front-ends do. -/
theorem c3_halt_preservation (s : Chip8) (m : String) (k : List Bool)
    (key : Nat) (p : List Nat) (h : s.halt_message = some m) :
    s.start.halt_message = some m ∧
    s.stop.halt_message = some m ∧
    s.set_vblank.halt_message = some m ∧
    (s.set_keys k).halt_message = some m ∧
    (s.save_awaited_key key).halt_message = some m ∧
    s.update_timers.halt_message = some m ∧
    s.tick_frame.halt_message = some m ∧
    (∀ s', s.load_program p = some s' → s'.halt_message = some m) ∧
    s.reset.halt_message = none := by
  refine ⟨h, h, h, h, h, h, h, ?_, rfl⟩
  intro s' hs'
  unfold Chip8.load_program at hs'
  rw [Option.map_eq_some'] at hs'
  obtain ⟨mem, -, hmem⟩ := hs'
  rw [← hmem]
  exact h

/-- Witness for `c3_halt_preservation` at a concrete halted state. -/
theorem c3_halt_preservation_witness :
    (Chip8.halt Chip8.chip8 "boom").start.halt_message = some "boom" ∧
    (Chip8.halt Chip8.chip8 "boom").stop.halt_message = some "boom" ∧
    (Chip8.halt Chip8.chip8 "boom").set_vblank.halt_message = some "boom" ∧
    ((Chip8.halt Chip8.chip8 "boom").set_keys (List.replicate 16 false)).halt_message = some "boom" ∧
    ((Chip8.halt Chip8.chip8 "boom").save_awaited_key 0).halt_message = some "boom" ∧
    (Chip8.halt Chip8.chip8 "boom").update_timers.halt_message = some "boom" ∧
    (Chip8.halt Chip8.chip8 "boom").tick_frame.halt_message = some "boom" ∧
    (∀ s', (Chip8.halt Chip8.chip8 "boom").load_program [] = some s' →
      s'.halt_message = some "boom") ∧
    (Chip8.halt Chip8.chip8 "boom").reset.halt_message = none :=
  c3_halt_preservation (Chip8.halt Chip8.chip8 "boom") "boom"
    (List.replicate 16 false) 0 [] rfl

/-! ## C4 — key-wait suppression is not a complete no-op -/

/-- C4 counterexample: the claim says that after Fx0A executes, every
subsequent `execute_cycle` is a no-op in which "no interpreter state is
mutated". The program counter is indeed unchanged, but `execute_cycle`
still increments the `frame_cycle` counter (and clears `halt_message`)
before the awaiting-key guard suppresses the instruction: from the state
after F10A (frame_cycle = 0) one `execute_cycle` yields frame_cycle = 1. -/
theorem c4_cycle_mutates_frame_cycle_cex :
    c4awaiting.map Chip8.frame_cycle = some 0 ∧
    (c4awaiting.bind (fun s => executeCycle s 0)).map Chip8.frame_cycle =
      some 1 ∧
    (c4awaiting.bind (fun s => executeCycle s 0)).map Chip8.program_counter =
      c4awaiting.map Chip8.program_counter := by
  have hstep : c4awaiting =
      some (({ Chip8.chip8 with awaiting_key := true, key_destination := 1 } : Chip8).increment_program_counter) := rfl
  have hcy : (({ Chip8.chip8 with awaiting_key := true, key_destination := 1 } : Chip8).increment_program_counter).program_counter
      < (({ Chip8.chip8 with awaiting_key := true, key_destination := 1 } : Chip8).increment_program_counter).memory.ram.length - 2 := by
    have h1 : (({ Chip8.chip8 with awaiting_key := true, key_destination := 1 } : Chip8).increment_program_counter).memory.ram.length = 4096 :=
      chip8_ram_length
    have h2 : (({ Chip8.chip8 with awaiting_key := true, key_destination := 1 } : Chip8).increment_program_counter).program_counter = 514 := rfl
    omega
  refine ⟨by rw [hstep]; decide, ?_, ?_⟩
  · rw [hstep, Option.some_bind]
    rw [executeCycle_of_lt _ 0 hcy]
    decide
  · rw [hstep, Option.some_bind]
    rw [executeCycle_of_lt _ 0 hcy]
    decide

/-- C4 amended: while `awaiting_key` is set (and the program counter is
below the end-of-memory cutoff), `execute_cycle` leaves the program counter
and all other interpreter state unchanged *except* that it increments
`frame_cycle` and clears `halt_message`; `save_awaited_key` writes the
resolved key to the destination register and clears `awaiting_key`, after
which execution resumes. -/
theorem c4_keywait_suppression (s : Chip8) (rnd key : Nat)
    (hawait : s.awaiting_key = true)
    (hpc : s.program_counter < s.memory.ram.length - 2) :
    executeCycle s rnd = some { s with
      halt_message := none
      frame_cycle := (s.frame_cycle + 1) % 4294967296 } ∧
    s.save_awaited_key key =
      { s with V := s.V.set s.key_destination key, awaiting_key := false } ∧
    (s.save_awaited_key key).awaiting_key = false := by
  refine ⟨?_, rfl, rfl⟩
  unfold executeCycle
  rw [if_neg (by simpa using Nat.not_le.mpr hpc)]
  unfold executeInstruction
  rw [if_pos (by simpa using hawait)]

/-- Witness for `c4_keywait_suppression` at the concrete state reached by
executing F10A on a fresh interpreter. -/
theorem c4_keywait_suppression_witness :
    executeCycle { Chip8.chip8 with awaiting_key := true, key_destination := 1 } 0 =
      some { { Chip8.chip8 with awaiting_key := true, key_destination := 1 } with
        halt_message := none
        frame_cycle := ({ Chip8.chip8 with awaiting_key := true, key_destination := 1 }.frame_cycle + 1) % 4294967296 } ∧
    { Chip8.chip8 with awaiting_key := true, key_destination := 1 }.save_awaited_key 9 =
      { { Chip8.chip8 with awaiting_key := true, key_destination := 1 } with
        V := { Chip8.chip8 with awaiting_key := true, key_destination := 1 }.V.set
          { Chip8.chip8 with awaiting_key := true, key_destination := 1 }.key_destination 9
        awaiting_key := false } ∧
    ({ Chip8.chip8 with awaiting_key := true, key_destination := 1 }.save_awaited_key 9).awaiting_key = false :=
  c4_keywait_suppression { Chip8.chip8 with awaiting_key := true, key_destination := 1 }
    0 9 rfl (by
      have h1 : ({ Chip8.chip8 with awaiting_key := true, key_destination := 1 } : Chip8).memory.ram.length = 4096 :=
        chip8_ram_length
      have h2 : ({ Chip8.chip8 with awaiting_key := true, key_destination := 1 } : Chip8).program_counter = 512 := rfl
      omega)

/-! ## C10 — `execute_cycle` does not consult the `running` flag -/

/-- C10: for every state with `running = false` and the program counter
below the end-of-memory cutoff, `execute_cycle` still fetches and executes
the instruction at the program counter exactly as it would when running
(clearing the halt message, counting the cycle, then dispatching the
fetched opcode); `start` and `stop` merely toggle the `running` flag. -/
theorem c10_running_not_consulted (s : Chip8) (rnd : Nat)
    (_hrun : s.running = false)
    (hpc : s.program_counter < s.memory.ram.length - 2) :
    executeCycle s rnd =
      executeInstruction { s with
        halt_message := none
        frame_cycle := (s.frame_cycle + 1) % 4294967296 }
        s.get_current_opcode rnd ∧
    s.start = { s with running := true } ∧
    s.stop = { s with running := false } := by
  refine ⟨executeCycle_of_lt s rnd hpc, rfl, rfl⟩

/-- Witness for `c10_running_not_consulted` on a fresh interpreter (which
has `running = false`): a "Step cycle" as issued by the repository's GUI
still executes the fetched opcode. -/
theorem c10_running_not_consulted_witness :
    executeCycle Chip8.chip8 0 =
      executeInstruction { Chip8.chip8 with
        halt_message := none
        frame_cycle := (Chip8.chip8.frame_cycle + 1) % 4294967296 }
        Chip8.chip8.get_current_opcode 0 ∧
    Chip8.chip8.start = { Chip8.chip8 with running := true } ∧
    Chip8.chip8.stop = { Chip8.chip8 with running := false } :=
  c10_running_not_consulted Chip8.chip8 0 rfl (by
    have h1 : Chip8.chip8.memory.ram.length = 4096 := chip8_ram_length
    have h2 : Chip8.chip8.program_counter = 512 := rfl
    omega)

/-! ## C8 — reset + load versus fresh construction -/

/-- Successful fresh-RAM program load, in spliced form. -/
lemma memory_new_load_some (rom : List Nat) (h : 0x200 + rom.length ≤ 4096) :
    Memory.new.load_program rom =
      some ⟨Memory.new.ram.take 0x200 ++ rom ++
        Memory.new.ram.drop (0x200 + rom.length)⟩ := by
  unfold Memory.load_program
  rw [memory_new_ram_length]
  exact if_pos h

/-- C8 counterexample: the claim says `reset()` + `load_program` reproduces
the *entire* engine-visible state of a freshly constructed interpreter,
including "control state such as running and key_destination". But
`Chip8::reset` does not touch `running`: a started interpreter that is
reset and reloaded still has `running = true`, while a fresh interpreter
has `running = false`. -/
theorem c8_reset_keeps_running_cex :
    (Chip8.chip8.start.reset.load_program []).map Chip8.running = some true ∧
    (Chip8.chip8.load_program []).map Chip8.running = some false := by
  have hload : Memory.new.load_program [] =
      some ⟨Memory.new.ram.take 0x200 ++ [] ++ Memory.new.ram.drop (0x200 + [].length)⟩ :=
    memory_new_load_some [] (by simp)
  constructor
  · unfold Chip8.load_program
    rw [show Chip8.chip8.start.reset.memory.reset = Memory.new from rfl, hload]
    rfl
  · unfold Chip8.load_program
    rw [show Chip8.chip8.memory.reset = Memory.new from rfl, hload]
    rfl

/-- C8 amended: `reset()` followed by `load_program(p)` agrees with a
freshly constructed interpreter of the same variant after loading the same
program on every field that reset reinitializes (`engineView`), and both
loads succeed or fail together — but `running`, `key_destination`,
`quirks`, `sound_on`, `execution_speed` and `persistent_flags` retain their
pre-reset values instead of the fresh defaults (see the counterexample). -/
theorem c8_reset_load_refines_fresh (s : Chip8) (p flags : List Nat)
    (fresh : Chip8)
    (hfresh : (s.variant = Variant.CHIP8 ∧ fresh = Chip8.chip8) ∨
      (s.variant = Variant.SCHIP11 ∧ fresh = Chip8.super_chip1_1 flags))
    (hsz : s.stack_size = fresh.stack_size)
    (hdisp : s.display.pixels.length = fresh.display.pixels.length) :
    (s.reset.load_program p).map engineView =
      (fresh.load_program p).map engineView ∧
    (s.reset.load_program p).isSome = (fresh.load_program p).isSome := by
  rcases hfresh with ⟨hvar, rfl⟩ | ⟨hvar, rfl⟩
  · have hd : s.display.clear = Display.small := by
      unfold Display.clear
      rw [show s.display.pixels.length = 2048 from hdisp.trans (by
        show (List.replicate (64 * 32) false).length = 2048
        rw [List.length_replicate])]
      rfl
    have hst : List.replicate s.stack_size (0 : Nat) = List.replicate 12 0 := by
      rw [hsz]; rfl
    unfold Chip8.load_program
    rw [show s.reset.memory.reset = Memory.new from rfl,
      show Chip8.chip8.memory.reset = Memory.new from rfl]
    rcases hm : Memory.new.load_program p with _ | m
    · exact ⟨rfl, rfl⟩
    · refine ⟨congrArg some ?_, rfl⟩
      simp [engineView, Chip8.reset, Chip8.chip8, hd, hst, hvar, hsz]
  · have hd : s.display.clear = Display.big := by
      unfold Display.clear
      rw [show s.display.pixels.length = 8192 from hdisp.trans (by
        show (List.replicate (128 * 64) false).length = 8192
        rw [List.length_replicate])]
      rfl
    have hst : List.replicate s.stack_size (0 : Nat) = List.replicate 16 0 := by
      rw [hsz]; rfl
    unfold Chip8.load_program
    rw [show s.reset.memory.reset = Memory.new from rfl,
      show (Chip8.super_chip1_1 flags).memory.reset = Memory.new from rfl]
    rcases hm : Memory.new.load_program p with _ | m
    · exact ⟨rfl, rfl⟩
    · refine ⟨congrArg some ?_, rfl⟩
      simp [engineView, Chip8.reset, Chip8.super_chip1_1, hd, hst, hvar, hsz]

/-- Witness for `c8_reset_load_refines_fresh`: a started baseline
interpreter, reset and reloaded with a one-byte program, agrees with a
fresh one on the whole `engineView`. -/
theorem c8_reset_load_refines_fresh_witness :
    (Chip8.chip8.start.reset.load_program [0xAB]).map engineView =
      (Chip8.chip8.load_program [0xAB]).map engineView ∧
    (Chip8.chip8.start.reset.load_program [0xAB]).isSome =
      (Chip8.chip8.load_program [0xAB]).isSome :=
  c8_reset_load_refines_fresh Chip8.chip8.start [0xAB] (List.replicate 8 0)
    Chip8.chip8 (Or.inl ⟨rfl, rfl⟩) rfl rfl

/-! ## C1 — add/sub flag semantics of 8xy4 and 8xy5 -/

/-- C1 counterexample: the claim quantifies over *every* pair of register
indices, but when x = 0xF the flag write overwrites the arithmetic result:
executing 8F04 (add V0 into VF) with VF = 5 and V0 = 3 leaves VF = 0 (the
carry flag), not (5 + 3) mod 256 = 8 as the claim requires for Vx. -/
theorem c1_flag_overwrites_vf_cex :
    (executeInstruction
        { Chip8.chip8 with V := ((List.replicate 16 0).set 0 3).set 15 5 }
        0x8F04 0).map (fun t => t.V.getD 15 0) = some 0 ∧
    (5 + 3) % 256 ≠ 0 := by
  constructor
  · decide
  · decide

/-- C1 amended: for every pair of register indices with x ≠ 0xF, the add
opcode 8xy4 sets Vx to (Vx + Vy) mod 256 and VF to 1 exactly when
Vx + Vy exceeds 255, and the subtract opcode 8xy5 sets Vx to
(Vx − Vy) mod 256 (computed as (Vx + 256 − Vy) mod 256 on bytes) and VF to
0 exactly when Vx < Vy; when x = 0xF the subsequent flag write overwrites
the arithmetic result, so VF ends up holding only the flag. Both opcodes
also advance the program counter by 2. -/
theorem c1_add_sub_flags (s : Chip8) (op rnd : Nat)
    (hawait : s.awaiting_key = false)
    (hV : s.V.length = 16)
    (htop : opTop op = 0x8)
    (hx : opX op ≠ 0xF) :
    (opNib op = 0x4 →
      ∃ s', executeInstruction s op rnd = some s' ∧
        s'.V.getD (opX op) 0 = (s.V.getD (opX op) 0 + s.V.getD (opY op) 0) % 256 ∧
        s'.V.getD 0xF 0 =
          (if 255 < s.V.getD (opX op) 0 + s.V.getD (opY op) 0 then 1 else 0) ∧
        s'.program_counter = (s.program_counter + 2) % 65536) ∧
    (opNib op = 0x5 →
      ∃ s', executeInstruction s op rnd = some s' ∧
        s'.V.getD (opX op) 0 = (s.V.getD (opX op) 0 + 256 - s.V.getD (opY op) 0) % 256 ∧
        s'.V.getD 0xF 0 =
          (if s.V.getD (opX op) 0 < s.V.getD (opY op) 0 then 0 else 1) ∧
        s'.program_counter = (s.program_counter + 2) % 65536) := by
  have hxlen : opX op < ((s.V.set (opX op)
      ((s.V.getD (opX op) 0 + s.V.getD (opY op) 0) % 256))).length := by
    rw [List.length_set, hV]; exact opX_lt op
  constructor
  · intro hnib
    unfold executeInstruction
    rw [if_neg (by simp [hawait])]
    simp only [executeArms]
    have e0 : ¬opTop op = 0x0 := by omega
    have e1 : ¬opTop op = 0x1 := by omega
    have e2 : ¬opTop op = 0x2 := by omega
    have e3 : ¬opTop op = 0x3 := by omega
    have e4 : ¬opTop op = 0x4 := by omega
    have e5 : ¬(opTop op = 0x5 ∧ opNib op = 0) := by omega
    have e6 : ¬opTop op = 0x6 := by omega
    have e7 : ¬opTop op = 0x7 := by omega
    rw [if_neg e0, if_neg e1, if_neg e2, if_neg e3, if_neg e4, if_neg e5,
      if_neg e6, if_neg e7, if_pos htop, if_neg (by omega),
      if_neg (by omega), if_neg (by omega), if_neg (by omega), if_pos hnib]
    simp only [alu_add]
    by_cases ho : 255 < s.V.getD (opX op) 0 + s.V.getD (opY op) 0
    · rw [if_pos ho, if_pos ho]
      refine ⟨_, rfl, ?_, ?_, rfl⟩
      · show (((s.V.set (opX op) ((s.V.getD (opX op) 0 + s.V.getD (opY op) 0) % 256)).set
          0xF 1).getD (opX op) 0) = _
        rw [getD_set_ne _ _ _ _ _ (fun h => hx h.symm)]
        rw [getD_set_self _ _ _ _ (by rw [hV]; exact opX_lt op)]
      · show ((s.V.set (opX op) _).set 0xF 1).getD 0xF 0 = 1
        rw [getD_set_self _ _ _ _ (by rw [List.length_set, hV]; norm_num)]
    · rw [if_neg ho, if_neg ho]
      refine ⟨_, rfl, ?_, ?_, rfl⟩
      · show (((s.V.set (opX op) ((s.V.getD (opX op) 0 + s.V.getD (opY op) 0) % 256)).set
          0xF 0).getD (opX op) 0) = _
        rw [getD_set_ne _ _ _ _ _ (fun h => hx h.symm)]
        rw [getD_set_self _ _ _ _ (by rw [hV]; exact opX_lt op)]
      · show ((s.V.set (opX op) _).set 0xF 0).getD 0xF 0 = 0
        rw [getD_set_self _ _ _ _ (by rw [List.length_set, hV]; norm_num)]
  · intro hnib
    unfold executeInstruction
    rw [if_neg (by simp [hawait])]
    simp only [executeArms]
    have e0 : ¬opTop op = 0x0 := by omega
    have e1 : ¬opTop op = 0x1 := by omega
    have e2 : ¬opTop op = 0x2 := by omega
    have e3 : ¬opTop op = 0x3 := by omega
    have e4 : ¬opTop op = 0x4 := by omega
    have e5 : ¬(opTop op = 0x5 ∧ opNib op = 0) := by omega
    have e6 : ¬opTop op = 0x6 := by omega
    have e7 : ¬opTop op = 0x7 := by omega
    rw [if_neg e0, if_neg e1, if_neg e2, if_neg e3, if_neg e4, if_neg e5,
      if_neg e6, if_neg e7, if_pos htop, if_neg (by omega),
      if_neg (by omega), if_neg (by omega), if_neg (by omega), if_neg (by omega),
      if_pos hnib]
    simp only [alu_sub]
    by_cases hu : s.V.getD (opX op) 0 < s.V.getD (opY op) 0
    · rw [if_pos hu, if_pos hu]
      refine ⟨_, rfl, ?_, ?_, rfl⟩
      · show (((s.V.set (opX op) ((s.V.getD (opX op) 0 + 256 - s.V.getD (opY op) 0) % 256)).set
          0xF 0).getD (opX op) 0) = _
        rw [getD_set_ne _ _ _ _ _ (fun h => hx h.symm)]
        rw [getD_set_self _ _ _ _ (by rw [hV]; exact opX_lt op)]
      · show ((s.V.set (opX op) _).set 0xF 0).getD 0xF 0 = 0
        rw [getD_set_self _ _ _ _ (by rw [List.length_set, hV]; norm_num)]
    · rw [if_neg hu, if_neg hu]
      refine ⟨_, rfl, ?_, ?_, rfl⟩
      · show (((s.V.set (opX op) ((s.V.getD (opX op) 0 + 256 - s.V.getD (opY op) 0) % 256)).set
          0xF 1).getD (opX op) 0) = _
        rw [getD_set_ne _ _ _ _ _ (fun h => hx h.symm)]
        rw [getD_set_self _ _ _ _ (by rw [hV]; exact opX_lt op)]
      · show ((s.V.set (opX op) _).set 0xF 1).getD 0xF 0 = 1
        rw [getD_set_self _ _ _ _ (by rw [List.length_set, hV]; norm_num)]

/-- Witness for `c1_add_sub_flags` at the claim's own example inputs:
8014 (V0 += V1) with V0 = 0xFF, V1 = 0x01, and 8015 (V0 -= V1) with
V0 = 0x01, V1 = 0x02. -/
theorem c1_add_sub_flags_witness :
    ((opNib 0x8014 = 0x4 →
      ∃ s', executeInstruction c1sAdd 0x8014 0 = some s' ∧
        s'.V.getD (opX 0x8014) 0 =
          (c1sAdd.V.getD (opX 0x8014) 0 + c1sAdd.V.getD (opY 0x8014) 0) % 256 ∧
        s'.V.getD 0xF 0 =
          (if 255 < c1sAdd.V.getD (opX 0x8014) 0 + c1sAdd.V.getD (opY 0x8014) 0
            then 1 else 0) ∧
        s'.program_counter = (c1sAdd.program_counter + 2) % 65536) ∧
     (opNib 0x8014 = 0x5 →
      ∃ s', executeInstruction c1sAdd 0x8014 0 = some s' ∧
        s'.V.getD (opX 0x8014) 0 =
          (c1sAdd.V.getD (opX 0x8014) 0 + 256 - c1sAdd.V.getD (opY 0x8014) 0) % 256 ∧
        s'.V.getD 0xF 0 =
          (if c1sAdd.V.getD (opX 0x8014) 0 < c1sAdd.V.getD (opY 0x8014) 0
            then 0 else 1) ∧
        s'.program_counter = (c1sAdd.program_counter + 2) % 65536)) ∧
    ((opNib 0x8015 = 0x4 →
      ∃ s', executeInstruction c1sSub 0x8015 0 = some s' ∧
        s'.V.getD (opX 0x8015) 0 =
          (c1sSub.V.getD (opX 0x8015) 0 + c1sSub.V.getD (opY 0x8015) 0) % 256 ∧
        s'.V.getD 0xF 0 =
          (if 255 < c1sSub.V.getD (opX 0x8015) 0 + c1sSub.V.getD (opY 0x8015) 0
            then 1 else 0) ∧
        s'.program_counter = (c1sSub.program_counter + 2) % 65536) ∧
     (opNib 0x8015 = 0x5 →
      ∃ s', executeInstruction c1sSub 0x8015 0 = some s' ∧
        s'.V.getD (opX 0x8015) 0 =
          (c1sSub.V.getD (opX 0x8015) 0 + 256 - c1sSub.V.getD (opY 0x8015) 0) % 256 ∧
        s'.V.getD 0xF 0 =
          (if c1sSub.V.getD (opX 0x8015) 0 < c1sSub.V.getD (opY 0x8015) 0
            then 0 else 1) ∧
        s'.program_counter = (c1sSub.program_counter + 2) % 65536)) :=
  ⟨c1_add_sub_flags c1sAdd 0x8014 0 rfl (by decide) (by decide) (by decide),
   c1_add_sub_flags c1sSub 0x8015 0 rfl (by decide) (by decide) (by decide)⟩

/-! ## A result characterization for `executeArms`

`executeArms_master` classifies every successful arm result by its effect
on the return-address stack and the program counter: either a plain
fall-through arm that leaves the stack alone and the program counter
unchanged-or-skipped, or one of the five special arms (jump-family, call,
return, the SUPER-CHIP exit, and the vblank-deferred draw). Claims C2 and
C6 both read off this classification. -/

lemma skip_if_cases (s : Chip8) (c : Prop) [Decidable c] :
    skip_if s c = s.increment_program_counter ∨ skip_if s c = s := by
  unfold skip_if
  split
  · exact Or.inl rfl
  · exact Or.inr rfl

lemma alu_or_eq (s : Chip8) (x y : Nat) : ∃ v, alu_or s x y = { s with V := v } := by
  unfold alu_or Chip8.set_flag
  by_cases hq : s.quirks.bitwise_reset_vf = true
  · rw [if_pos hq]
    exact ⟨_, rfl⟩
  · rw [if_neg hq]
    exact ⟨_, rfl⟩

lemma alu_and_eq (s : Chip8) (x y : Nat) : ∃ v, alu_and s x y = { s with V := v } := by
  unfold alu_and Chip8.set_flag
  by_cases hq : s.quirks.bitwise_reset_vf = true
  · rw [if_pos hq]
    exact ⟨_, rfl⟩
  · rw [if_neg hq]
    exact ⟨_, rfl⟩

lemma alu_xor_eq (s : Chip8) (x y : Nat) : ∃ v, alu_xor s x y = { s with V := v } := by
  unfold alu_xor Chip8.set_flag
  by_cases hq : s.quirks.bitwise_reset_vf = true
  · rw [if_pos hq]
    exact ⟨_, rfl⟩
  · rw [if_neg hq]
    exact ⟨_, rfl⟩

lemma alu_add_eq (s : Chip8) (x y : Nat) : ∃ v, alu_add s x y = { s with V := v } := by
  unfold alu_add Chip8.set_flag
  by_cases hq : 255 < s.V.getD x 0 + s.V.getD y 0
  · rw [if_pos hq]
    exact ⟨_, rfl⟩
  · rw [if_neg hq]
    exact ⟨_, rfl⟩

lemma alu_sub_eq (s : Chip8) (x y : Nat) : ∃ v, alu_sub s x y = { s with V := v } := by
  unfold alu_sub Chip8.set_flag
  by_cases hq : s.V.getD x 0 < s.V.getD y 0
  · rw [if_pos hq]
    exact ⟨_, rfl⟩
  · rw [if_neg hq]
    exact ⟨_, rfl⟩

lemma alu_subn_eq (s : Chip8) (x y : Nat) : ∃ v, alu_subn s x y = { s with V := v } := by
  unfold alu_subn Chip8.set_flag
  by_cases hq : s.V.getD y 0 < s.V.getD x 0
  · rw [if_pos hq]
    exact ⟨_, rfl⟩
  · rw [if_neg hq]
    exact ⟨_, rfl⟩

lemma alu_shr_eq (s : Chip8) (x y : Nat) : ∃ v, alu_shr s x y = { s with V := v } := by
  unfold alu_shr Chip8.set_flag
  by_cases hq : s.quirks.direct_shifting = false
  · rw [if_pos hq]
    exact ⟨_, rfl⟩
  · rw [if_neg hq]
    exact ⟨_, rfl⟩

lemma alu_shl_eq (s : Chip8) (x y : Nat) : ∃ v, alu_shl s x y = { s with V := v } := by
  unfold alu_shl Chip8.set_flag
  by_cases hq : s.quirks.direct_shifting = false
  · rw [if_pos hq]
    exact ⟨_, rfl⟩
  · rw [if_neg hq]
    exact ⟨_, rfl⟩

/-- A fall-through arm `some (X, false)` with stack frame untouched. -/
lemma masterP_plain (s : Chip8) (op : Nat) (t : Chip8) (early : Bool)
    (X : Chip8) (h : some (X, false) = some (t, early))
    (hX : X.stack_pointer = s.stack_pointer ∧ X.stack = s.stack ∧
      X.stack_size = s.stack_size ∧
      (X.program_counter = s.program_counter ∨
        X.program_counter = (s.program_counter + 2) % 65536)) :
    masterP s op t early := by
  obtain ⟨h1, h2⟩ := Prod.mk.inj (Option.some.inj h)
  subst h1
  subst h2
  exact Or.inl ⟨rfl, hX.1, hX.2.1, hX.2.2.1, hX.2.2.2⟩

/-- A fall-through arm built with `Option.map` over a fallible loop. -/
lemma masterP_map (s : Chip8) (op : Nat) (t : Chip8) (early : Bool)
    {α : Type} (o : Option α) (g : α → Chip8)
    (h : (o.map fun r => (g r, false)) = some (t, early))
    (hg : ∀ r, (g r).stack_pointer = s.stack_pointer ∧ (g r).stack = s.stack ∧
      (g r).stack_size = s.stack_size ∧
      ((g r).program_counter = s.program_counter ∨
        (g r).program_counter = (s.program_counter + 2) % 65536)) :
    masterP s op t early := by
  rw [Option.map_eq_some'] at h
  obtain ⟨r, -, h⟩ := h
  exact masterP_plain s op t early (g r) (congrArg some h) (hg r)

/-- A conditional-skip arm `some (skip_if s c, false)`. -/
lemma masterP_skip (s : Chip8) (op : Nat) (t : Chip8) (early : Bool)
    (c : Prop) [Decidable c]
    (h : some (skip_if s c, false) = some (t, early)) :
    masterP s op t early := by
  rcases skip_if_cases s c with hsk | hsk <;> rw [hsk] at h
  · exact masterP_plain s op t early _ h ⟨rfl, rfl, rfl, Or.inr rfl⟩
  · exact masterP_plain s op t early _ h ⟨rfl, rfl, rfl, Or.inl rfl⟩

set_option maxHeartbeats 2000000 in
/-- Classification of every successful `executeArms` result. -/
lemma executeArms_master (s : Chip8) (op rnd : Nat) (t : Chip8) (early : Bool)
    (h : executeArms s op rnd = some (t, early)) :
    masterP s op t early := by
  unfold executeArms at h
  by_cases c0 : opTop op = 0x0
  · rw [if_pos c0] at h
    by_cases cz : op = 0
    · rw [if_pos cz] at h
      exact masterP_plain s op t early _ h ⟨rfl, rfl, rfl, Or.inl rfl⟩
    · rw [if_neg cz] at h
      by_cases csc : s.variant.supports_schip = true ∧ opY op = 0xC
      · rw [if_pos csc] at h
        exact masterP_plain s op t early _ h ⟨rfl, rfl, rfl, Or.inl rfl⟩
      · rw [if_neg csc] at h
        by_cases ce0 : opByte op = 0xE0
        · rw [if_pos ce0] at h
          exact masterP_plain s op t early _ h ⟨rfl, rfl, rfl, Or.inl rfl⟩
        · rw [if_neg ce0] at h
          by_cases cee : opByte op = 0xEE
          · rw [if_pos cee] at h
            by_cases hsp : s.stack_pointer - 1 < s.stack.length
            · rw [dif_pos hsp] at h
              obtain ⟨h1, h2⟩ := Prod.mk.inj (Option.some.inj h)
              subst h1
              subst h2
              exact Or.inr (Or.inr (Or.inr (Or.inl
                ⟨c0, cee, rfl, hsp, rfl, rfl, rfl⟩)))
            · rw [dif_neg hsp] at h
              exact Option.noConfusion h
          · rw [if_neg cee] at h
            by_cases cff : opByte op = 0xFF ∧ s.variant.supports_schip = true
            · rw [if_pos cff] at h
              exact masterP_plain s op t early _ h ⟨rfl, rfl, rfl, Or.inl rfl⟩
            · rw [if_neg cff] at h
              by_cases cfe : opByte op = 0xFE ∧ s.variant.supports_schip = true
              · rw [if_pos cfe] at h
                exact masterP_plain s op t early _ h ⟨rfl, rfl, rfl, Or.inl rfl⟩
              · rw [if_neg cfe] at h
                by_cases cfb : opByte op = 0xFB ∧ s.variant.supports_schip = true
                · rw [if_pos cfb] at h
                  exact masterP_plain s op t early _ h ⟨rfl, rfl, rfl, Or.inl rfl⟩
                · rw [if_neg cfb] at h
                  by_cases cfc : opByte op = 0xFC ∧ s.variant.supports_schip = true
                  · rw [if_pos cfc] at h
                    exact masterP_plain s op t early _ h ⟨rfl, rfl, rfl, Or.inl rfl⟩
                  · rw [if_neg cfc] at h
                    by_cases cfd : opByte op = 0xFD ∧ s.variant.supports_schip = true
                    · rw [if_pos cfd] at h
                      obtain ⟨h1, h2⟩ := Prod.mk.inj (Option.some.inj h)
                      subst h1
                      subst h2
                      exact Or.inr (Or.inr (Or.inr (Or.inr (Or.inl
                        ⟨c0, cfd.1, cfd.2, rfl, rfl⟩))))
                    · rw [if_neg cfd] at h
                      exact masterP_plain s op t early _ h ⟨rfl, rfl, rfl, Or.inl rfl⟩
  · rw [if_neg c0] at h
    by_cases c1 : opTop op = 0x1
    · rw [if_pos c1] at h
      obtain ⟨h1, h2⟩ := Prod.mk.inj (Option.some.inj h)
      subst h1
      subst h2
      exact Or.inr (Or.inl ⟨Or.inl c1, rfl, rfl, rfl, rfl⟩)
    · rw [if_neg c1] at h
      by_cases c2 : opTop op = 0x2
      · rw [if_pos c2] at h
        by_cases hsl : s.stack_pointer < s.stack.length
        · rw [if_pos hsl] at h
          obtain ⟨h1, h2⟩ := Prod.mk.inj (Option.some.inj h)
          subst h1
          subst h2
          exact Or.inr (Or.inr (Or.inl
            ⟨c2, rfl, hsl, rfl, List.length_set .., rfl⟩))
        · rw [if_neg hsl] at h
          exact Option.noConfusion h
      · rw [if_neg c2] at h
        by_cases c3 : opTop op = 0x3
        · rw [if_pos c3] at h
          exact masterP_skip s op t early _ h
        · rw [if_neg c3] at h
          by_cases c4 : opTop op = 0x4
          · rw [if_pos c4] at h
            exact masterP_skip s op t early _ h
          · rw [if_neg c4] at h
            by_cases c5 : opTop op = 0x5 ∧ opNib op = 0
            · rw [if_pos c5] at h
              exact masterP_skip s op t early _ h
            · rw [if_neg c5] at h
              by_cases c6 : opTop op = 0x6
              · rw [if_pos c6] at h
                exact masterP_plain s op t early _ h ⟨rfl, rfl, rfl, Or.inl rfl⟩
              · rw [if_neg c6] at h
                by_cases c7 : opTop op = 0x7
                · rw [if_pos c7] at h
                  exact masterP_plain s op t early _ h ⟨rfl, rfl, rfl, Or.inl rfl⟩
                · rw [if_neg c7] at h
                  by_cases c8 : opTop op = 0x8
                  · rw [if_pos c8] at h
                    by_cases n0 : opNib op = 0x0
                    · rw [if_pos n0] at h
                      exact masterP_plain s op t early _ h ⟨rfl, rfl, rfl, Or.inl rfl⟩
                    · rw [if_neg n0] at h
                      by_cases n1 : opNib op = 0x1
                      · rw [if_pos n1] at h
                        refine masterP_plain s op t early _ h ?_
                        obtain ⟨v, hv⟩ := alu_or_eq s (opX op) (opY op)
                        rw [hv]
                        exact ⟨rfl, rfl, rfl, Or.inl rfl⟩
                      · rw [if_neg n1] at h
                        by_cases n2 : opNib op = 0x2
                        · rw [if_pos n2] at h
                          refine masterP_plain s op t early _ h ?_
                          obtain ⟨v, hv⟩ := alu_and_eq s (opX op) (opY op)
                          rw [hv]
                          exact ⟨rfl, rfl, rfl, Or.inl rfl⟩
                        · rw [if_neg n2] at h
                          by_cases n3 : opNib op = 0x3
                          · rw [if_pos n3] at h
                            refine masterP_plain s op t early _ h ?_
                            obtain ⟨v, hv⟩ := alu_xor_eq s (opX op) (opY op)
                            rw [hv]
                            exact ⟨rfl, rfl, rfl, Or.inl rfl⟩
                          · rw [if_neg n3] at h
                            by_cases n4 : opNib op = 0x4
                            · rw [if_pos n4] at h
                              refine masterP_plain s op t early _ h ?_
                              obtain ⟨v, hv⟩ := alu_add_eq s (opX op) (opY op)
                              rw [hv]
                              exact ⟨rfl, rfl, rfl, Or.inl rfl⟩
                            · rw [if_neg n4] at h
                              by_cases n5 : opNib op = 0x5
                              · rw [if_pos n5] at h
                                refine masterP_plain s op t early _ h ?_
                                obtain ⟨v, hv⟩ := alu_sub_eq s (opX op) (opY op)
                                rw [hv]
                                exact ⟨rfl, rfl, rfl, Or.inl rfl⟩
                              · rw [if_neg n5] at h
                                by_cases n6 : opNib op = 0x6
                                · rw [if_pos n6] at h
                                  refine masterP_plain s op t early _ h ?_
                                  obtain ⟨v, hv⟩ := alu_shr_eq s (opX op) (opY op)
                                  rw [hv]
                                  exact ⟨rfl, rfl, rfl, Or.inl rfl⟩
                                · rw [if_neg n6] at h
                                  by_cases n7 : opNib op = 0x7
                                  · rw [if_pos n7] at h
                                    refine masterP_plain s op t early _ h ?_
                                    obtain ⟨v, hv⟩ := alu_subn_eq s (opX op) (opY op)
                                    rw [hv]
                                    exact ⟨rfl, rfl, rfl, Or.inl rfl⟩
                                  · rw [if_neg n7] at h
                                    by_cases nE : opNib op = 0xE
                                    · rw [if_pos nE] at h
                                      refine masterP_plain s op t early _ h ?_
                                      obtain ⟨v, hv⟩ := alu_shl_eq s (opX op) (opY op)
                                      rw [hv]
                                      exact ⟨rfl, rfl, rfl, Or.inl rfl⟩
                                    · rw [if_neg nE] at h
                                      exact masterP_plain s op t early _ h
                                        ⟨rfl, rfl, rfl, Or.inl rfl⟩
                  · rw [if_neg c8] at h
                    by_cases c9 : opTop op = 0x9 ∧ opNib op = 0
                    · rw [if_pos c9] at h
                      exact masterP_skip s op t early _ h
                    · rw [if_neg c9] at h
                      by_cases cA : opTop op = 0xA
                      · rw [if_pos cA] at h
                        exact masterP_plain s op t early _ h ⟨rfl, rfl, rfl, Or.inl rfl⟩
                      · rw [if_neg cA] at h
                        by_cases cB : opTop op = 0xB
                        · rw [if_pos cB] at h
                          obtain ⟨h1, h2⟩ := Prod.mk.inj (Option.some.inj h)
                          subst h1
                          subst h2
                          exact Or.inr (Or.inl ⟨Or.inr cB, rfl, rfl, rfl, rfl⟩)
                        · rw [if_neg cB] at h
                          by_cases cC : opTop op = 0xC
                          · rw [if_pos cC] at h
                            exact masterP_plain s op t early _ h ⟨rfl, rfl, rfl, Or.inl rfl⟩
                          · rw [if_neg cC] at h
                            by_cases cD16 : opTop op = 0xD ∧
                                s.variant.supports_schip = true ∧ opNib op = 0
                            · rw [if_pos cD16] at h
                              by_cases cdef : s.quirks.wait_for_vblank = true ∧
                                  s.vblank = false
                              · rw [if_pos cdef] at h
                                obtain ⟨h1, h2⟩ := Prod.mk.inj (Option.some.inj h)
                                subst h1
                                subst h2
                                exact Or.inr (Or.inr (Or.inr (Or.inr (Or.inr
                                  ⟨cD16.1, cdef.1, cdef.2, rfl, rfl⟩))))
                              · rw [if_neg cdef] at h
                                refine masterP_map s op t early _ _ h ?_
                                intro r
                                exact ⟨rfl, rfl, rfl, Or.inl rfl⟩
                            · rw [if_neg cD16] at h
                              by_cases cD : opTop op = 0xD
                              · rw [if_pos cD] at h
                                by_cases cdef : s.quirks.wait_for_vblank = true ∧
                                    s.vblank = false
                                · rw [if_pos cdef] at h
                                  obtain ⟨h1, h2⟩ := Prod.mk.inj (Option.some.inj h)
                                  subst h1
                                  subst h2
                                  exact Or.inr (Or.inr (Or.inr (Or.inr (Or.inr
                                    ⟨cD, cdef.1, cdef.2, rfl, rfl⟩))))
                                · rw [if_neg cdef] at h
                                  refine masterP_map s op t early _ _ h ?_
                                  intro r
                                  exact ⟨rfl, rfl, rfl, Or.inl rfl⟩
                              · rw [if_neg cD] at h
                                by_cases cE : opTop op = 0xE
                                · rw [if_pos cE] at h
                                  by_cases e9E : opByte op = 0x9E
                                  · rw [if_pos e9E] at h
                                    exact masterP_skip s op t early _ h
                                  · rw [if_neg e9E] at h
                                    by_cases eA1 : opByte op = 0xA1
                                    · rw [if_pos eA1] at h
                                      exact masterP_skip s op t early _ h
                                    · rw [if_neg eA1] at h
                                      exact masterP_plain s op t early _ h
                                        ⟨rfl, rfl, rfl, Or.inl rfl⟩
                                · rw [if_neg cE] at h
                                  by_cases cF : opTop op = 0xF
                                  · rw [if_pos cF] at h
                                    by_cases f07 : opByte op = 0x07
                                    · rw [if_pos f07] at h
                                      exact masterP_plain s op t early _ h
                                        ⟨rfl, rfl, rfl, Or.inl rfl⟩
                                    · rw [if_neg f07] at h
                                      by_cases f0A : opByte op = 0x0A
                                      · rw [if_pos f0A] at h
                                        exact masterP_plain s op t early _ h
                                          ⟨rfl, rfl, rfl, Or.inl rfl⟩
                                      · rw [if_neg f0A] at h
                                        by_cases f15 : opByte op = 0x15
                                        · rw [if_pos f15] at h
                                          exact masterP_plain s op t early _ h
                                            ⟨rfl, rfl, rfl, Or.inl rfl⟩
                                        · rw [if_neg f15] at h
                                          by_cases f18 : opByte op = 0x18
                                          · rw [if_pos f18] at h
                                            exact masterP_plain s op t early _ h
                                              ⟨rfl, rfl, rfl, Or.inl rfl⟩
                                          · rw [if_neg f18] at h
                                            by_cases f1E : opByte op = 0x1E
                                            · rw [if_pos f1E] at h
                                              exact masterP_plain s op t early _ h
                                                ⟨rfl, rfl, rfl, Or.inl rfl⟩
                                            · rw [if_neg f1E] at h
                                              by_cases f29 : opByte op = 0x29
                                              · rw [if_pos f29] at h
                                                exact masterP_plain s op t early _ h
                                                  ⟨rfl, rfl, rfl, Or.inl rfl⟩
                                              · rw [if_neg f29] at h
                                                by_cases f30 : opByte op = 0x30 ∧
                                                    s.variant.supports_schip = true
                                                · rw [if_pos f30] at h
                                                  exact masterP_plain s op t early _ h
                                                    ⟨rfl, rfl, rfl, Or.inl rfl⟩
                                                · rw [if_neg f30] at h
                                                  by_cases f33 : opByte op = 0x33
                                                  · rw [if_pos f33] at h
                                                    refine masterP_map s op t early _ _ h ?_
                                                    intro r
                                                    exact ⟨rfl, rfl, rfl, Or.inl rfl⟩
                                                  · rw [if_neg f33] at h
                                                    by_cases f55 : opByte op = 0x55
                                                    · rw [if_pos f55] at h
                                                      refine masterP_map s op t early _ _ h ?_
                                                      intro r
                                                      exact ⟨rfl, rfl, rfl, Or.inl rfl⟩
                                                    · rw [if_neg f55] at h
                                                      by_cases f65 : opByte op = 0x65
                                                      · rw [if_pos f65] at h
                                                        refine masterP_map s op t early _ _ h ?_
                                                        intro r
                                                        exact ⟨rfl, rfl, rfl, Or.inl rfl⟩
                                                      · rw [if_neg f65] at h
                                                        by_cases f75 : opByte op = 0x75 ∧
                                                            s.variant.supports_schip = true
                                                        · rw [if_pos f75] at h
                                                          by_cases fx8 : opX op < 8
                                                          · rw [if_pos fx8] at h
                                                            exact masterP_plain s op t early _ h
                                                              ⟨rfl, rfl, rfl, Or.inl rfl⟩
                                                          · rw [if_neg fx8] at h
                                                            exact Option.noConfusion h
                                                        · rw [if_neg f75] at h
                                                          by_cases f85 : opByte op = 0x85 ∧
                                                              s.variant.supports_schip = true
                                                          · rw [if_pos f85] at h
                                                            by_cases fx8 : opX op < 8
                                                            · rw [if_pos fx8] at h
                                                              exact masterP_plain s op t early _ h
                                                                ⟨rfl, rfl, rfl, Or.inl rfl⟩
                                                            · rw [if_neg fx8] at h
                                                              exact Option.noConfusion h
                                                          · rw [if_neg f85] at h
                                                            exact masterP_plain s op t early _ h
                                                              ⟨rfl, rfl, rfl, Or.inl rfl⟩
                                  · rw [if_neg cF] at h
                                    exact masterP_plain s op t early _ h
                                      ⟨rfl, rfl, rfl, Or.inl rfl⟩

/-! ## C2 — stack pointer bounds -/

/-- C2 counterexample: the claim says stack-pointer increments "saturate at
the capacity (12 for the baseline variant), silently truncating rather than
raising an error". Twelve nested calls from a fresh baseline interpreter
drive the stack pointer to the capacity 12, and the thirteenth call does
*not* silently truncate: the source writes `self.stack[self.stack_pointer]`
before saturating, which indexes a 12-entry `Vec` at position 12 and panics
(modeled as `none`). The u8 `saturating_add(1)` saturates at 255, not at
the stack capacity. -/
theorem c2_call_at_capacity_panics_cex :
    (c2calls 12).map Chip8.stack_pointer = some 12 ∧
    (c2calls 12).map (fun t => t.stack.length) = some 12 ∧
    c2calls 13 = none := by
  refine ⟨by decide, by decide, by decide⟩

/-- C2 amended: in every successful execution the stack pointer never
exceeds the stack capacity — decrements saturate at zero and the
`sp ≤ stack length = stack size` invariant is preserved by every
instruction — but a call executed with the stack pointer at the capacity
does not silently truncate: it panics on the out-of-bounds stack write
(modeled as `none`). -/
theorem c2_stack_pointer_bounds (s : Chip8) (op rnd : Nat) :
    (∀ s', executeInstruction s op rnd = some s' →
      s.stack_pointer ≤ s.stack.length → s.stack.length = s.stack_size →
      s'.stack_pointer ≤ s'.stack.length ∧ s'.stack.length = s'.stack_size) ∧
    (opTop op = 0x2 → s.awaiting_key = false →
      s.stack.length ≤ s.stack_pointer →
      executeInstruction s op rnd = none) := by
  constructor
  · intro s' hexec hle hsz
    unfold executeInstruction at hexec
    by_cases ha : s.awaiting_key = true
    · rw [if_pos ha] at hexec
      obtain rfl := Option.some.inj hexec
      exact ⟨hle, hsz⟩
    · rw [if_neg ha] at hexec
      rw [Option.map_eq_some'] at hexec
      obtain ⟨⟨t, early⟩, harm, hf⟩ := hexec
      have htrans : t.stack_pointer ≤ t.stack.length ∧ t.stack.length = t.stack_size →
          s'.stack_pointer ≤ s'.stack.length ∧ s'.stack.length = s'.stack_size := by
        intro ht
        rw [← hf]
        cases early
        · exact ht
        · exact ht
      apply htrans
      rcases executeArms_master s op rnd t early harm with
        ⟨-, h1, h2, h3, -⟩ | ⟨-, -, h1, h2, h3⟩ | ⟨-, -, hlt, h1, h2, h3⟩ |
        ⟨-, -, -, hlt, h1, h2, h3⟩ | ⟨-, -, -, -, rfl⟩ | ⟨-, -, -, -, rfl⟩
      · rw [h1, h2, h3]
        exact ⟨hle, hsz⟩
      · rw [h1, h2, h3]
        exact ⟨hle, hsz⟩
      · constructor
        · rw [h1, h2]
          omega
        · rw [h2, h3, hsz]
      · constructor
        · rw [h1, h2]
          omega
        · rw [h2, h3, hsz]
      · exact ⟨Nat.zero_le _, List.length_replicate ..⟩
      · exact ⟨hle, hsz⟩
  · intro htop hawait hge
    unfold executeInstruction
    rw [if_neg (by simp [hawait])]
    unfold executeArms
    rw [if_neg (by omega), if_neg (by omega), if_pos htop,
      if_neg (by omega)]
    rfl

/-- Witness for `c2_stack_pointer_bounds`: the invariant at a fresh
interpreter executing the clear-screen opcode, and the panic of a call
executed with the stack pointer at the baseline capacity 12 (the state the
counterexample reaches by twelve nested calls). -/
theorem c2_stack_pointer_bounds_witness :
    (∃ s', executeInstruction Chip8.chip8 0x00E0 0 = some s' ∧
      s'.stack_pointer ≤ s'.stack.length ∧ s'.stack.length = s'.stack_size) ∧
    executeInstruction { Chip8.chip8 with stack_pointer := 12 } 0x2345 0 = none := by
  constructor
  · cases hcase : executeInstruction Chip8.chip8 0x00E0 0 with
    | none =>
      have hs : (executeInstruction Chip8.chip8 0x00E0 0).isSome = true := by decide
      rw [hcase] at hs
      cases hs
    | some s' =>
      exact ⟨s', rfl,
        (c2_stack_pointer_bounds Chip8.chip8 0x00E0 0).1 s' hcase
          (by decide) (by decide)⟩
  · exact (c2_stack_pointer_bounds { Chip8.chip8 with stack_pointer := 12 }
      0x2345 0).2 (by decide) (by decide) (by decide)

/-! ## C6 — program-counter auto-advance -/

/-- C6 counterexample: the claim says the +2 auto-advance "holds in every
state, including a deferred draw under the vblank quirk". But a deferred
draw (vblank quirk active, vblank not ready — here a fresh COSMAC-VIP
interpreter whose `vblank` has been consumed) returns early *without*
advancing the program counter, so that the draw is retried next cycle:
executing D011 leaves the program counter at 0x200, not 0x202. -/
theorem c6_deferred_draw_keeps_pc_cex :
    (executeInstruction { Chip8.chip8 with vblank := false } 0xD011 0).map
      Chip8.program_counter = some 0x200 ∧
    (0x200 : Nat) ≠ (0x200 + 2) % 65536 := by
  constructor
  · decide
  · decide

/-- C6 amended: for every opcode executed by `execute_instruction` (not
suppressed by `awaiting_key`), the program counter afterwards is the old
value plus 2 (plus another 2 for a taken conditional skip), except for the
control-transfer opcodes — jump 1nnn, call 2nnn, return 00EE, and
jump-with-offset Bnnn — which set it explicitly and return early, except
for the SUPER-CHIP exit opcode 00FD (which resets the machine, ending at
0x202), and except for a draw deferred by the vblank quirk, which returns
early with the program counter untouched so the draw is retried. -/
theorem c6_pc_auto_advance (s : Chip8) (op rnd : Nat) (s' : Chip8)
    (hawait : s.awaiting_key = false)
    (h1 : opTop op ≠ 0x1) (h2 : opTop op ≠ 0x2) (hB : opTop op ≠ 0xB)
    (hEE : ¬(opTop op = 0x0 ∧ opByte op = 0xEE))
    (hFD : ¬(opTop op = 0x0 ∧ opByte op = 0xFD ∧ s.variant.supports_schip = true))
    (hDf : ¬(opTop op = 0xD ∧ s.quirks.wait_for_vblank = true ∧ s.vblank = false))
    (hexec : executeInstruction s op rnd = some s') :
    s'.program_counter = (s.program_counter + 2) % 65536 ∨
    s'.program_counter = ((s.program_counter + 2) % 65536 + 2) % 65536 := by
  unfold executeInstruction at hexec
  rw [if_neg (by simp [hawait])] at hexec
  rw [Option.map_eq_some'] at hexec
  obtain ⟨⟨t, early⟩, harm, hf⟩ := hexec
  rcases executeArms_master s op rnd t early harm with
    ⟨hearly, -, -, -, hpc⟩ | ⟨hj, -, -, -, -⟩ | ⟨hc, -, -, -, -, -⟩ |
    ⟨h0, hee, -, -, -, -, -⟩ | ⟨h0, hfd, hschip, -, -⟩ | ⟨hd, hw, hv, -, -⟩
  · subst hearly
    rw [← hf]
    rcases hpc with hpc | hpc
    · left
      show (t.program_counter + 2) % 65536 = _
      rw [hpc]
    · right
      show (t.program_counter + 2) % 65536 = _
      rw [hpc]
  · rcases hj with hj | hj
    · exact absurd hj h1
    · exact absurd hj hB
  · exact absurd hc h2
  · exact absurd ⟨h0, hee⟩ hEE
  · exact absurd ⟨h0, hfd, hschip⟩ hFD
  · exact absurd ⟨hd, hw, hv⟩ hDf

/-- Witness for `c6_pc_auto_advance`: the clear-screen opcode on a fresh
interpreter advances the program counter from 0x200 to 0x202. -/
theorem c6_pc_auto_advance_witness :
    (executeInstruction Chip8.chip8 0x00E0 0).map Chip8.program_counter =
      some ((Chip8.chip8.program_counter + 2) % 65536) ∨
    (executeInstruction Chip8.chip8 0x00E0 0).map Chip8.program_counter =
      some (((Chip8.chip8.program_counter + 2) % 65536 + 2) % 65536) := by
  cases hcase : executeInstruction Chip8.chip8 0x00E0 0 with
  | none =>
    have hs : (executeInstruction Chip8.chip8 0x00E0 0).isSome = true := by decide
    rw [hcase] at hs
    cases hs
  | some s' =>
    rcases c6_pc_auto_advance Chip8.chip8 0x00E0 0 s' rfl (by decide) (by decide)
      (by decide) (by decide) (by decide) (by decide) hcase with h | h
    · exact Or.inl (congrArg some h)
    · exact Or.inr (congrArg some h)

/-! ## C5 — illegal opcodes halt with a diagnostic -/

lemma append3_ne_empty (a b c : String) (ha : a.length ≠ 0) :
    a ++ b ++ c ≠ "" := by
  intro he
  have h2 := congrArg String.length he
  rw [String.length_append, String.length_append] at h2
  simp at h2
  omega

lemma machineMsg_ne_empty (op : Nat) : machineMsg op ≠ "" :=
  append3_ne_empty _ _ _ (by decide)

lemma illegalMsg_ne_empty (op : Nat) : illegalMsg op ≠ "" := by
  unfold illegalMsg
  intro he
  have h2 := congrArg String.length he
  rw [String.length_append] at h2
  simp at h2
  have ha : ("Illegal instruction: " : String).length = 21 := by decide
  omega

/-- C5: executing any illegal or variant-unsupported opcode halts the
engine — `running` becomes false and `halt_message` becomes a non-empty
diagnostic string containing the `{:04X}` rendering of the opcode value —
and the program counter then advances past the offending instruction. -/
theorem c5_illegal_opcode_halts (s : Chip8) (op rnd : Nat)
    (hawait : s.awaiting_key = false)
    (hill : isIllegal s.variant op) :
    ∃ s', executeInstruction s op rnd = some s' ∧ s'.running = false ∧
      ∃ m, s'.halt_message = some m ∧ m ≠ "" ∧
        ∃ pre post, m = pre ++ toHex4 op ++ post := by
  unfold executeInstruction
  rw [if_neg (by simp [hawait])]
  unfold executeArms
  rcases hill with
    ⟨ht, hz, hsc, he0, hee, hff, hfe, hfb, hfc, hfd⟩ |
    ⟨ht, hn⟩ |
    ⟨ht, hn0, hn1, hn2, hn3, hn4, hn5, hn6, hn7, hnE⟩ |
    ⟨ht, hn⟩ |
    ⟨ht, h9E, hA1⟩ |
    ⟨ht, h07, h0A, h15, h18, h1E, h29, h30, h33, h55, h65, h75, h85⟩
  · rw [if_pos ht, if_neg hz, if_neg hsc, if_neg he0, if_neg hee, if_neg hff,
      if_neg hfe, if_neg hfb, if_neg hfc, if_neg hfd]
    exact ⟨_, rfl, rfl, machineMsg op, rfl, machineMsg_ne_empty op,
      "Machine code routines are not supported: ",
      ". Try a different CHIP-8 variant.", rfl⟩
  · rw [if_neg (by omega), if_neg (by omega), if_neg (by omega),
      if_neg (by omega), if_neg (by omega),
      if_neg (fun hc => absurd hc.2 hn), if_neg (by omega),
      if_neg (by omega), if_neg (by omega),
      if_neg (fun hc => absurd hc.1 (by omega)), if_neg (by omega),
      if_neg (by omega), if_neg (by omega),
      if_neg (fun hc => absurd hc.1 (by omega)), if_neg (by omega),
      if_neg (by omega), if_neg (by omega)]
    exact ⟨_, rfl, rfl, illegalMsg op, rfl, illegalMsg_ne_empty op,
      "Illegal instruction: ", "", by unfold illegalMsg; rw [String.append_empty]⟩
  · rw [if_neg (by omega), if_neg (by omega), if_neg (by omega),
      if_neg (by omega), if_neg (by omega),
      if_neg (fun hc => absurd hc.1 (by omega)), if_neg (by omega),
      if_neg (by omega), if_pos ht, if_neg hn0, if_neg hn1, if_neg hn2,
      if_neg hn3, if_neg hn4, if_neg hn5, if_neg hn6, if_neg hn7, if_neg hnE]
    exact ⟨_, rfl, rfl, illegalMsg op, rfl, illegalMsg_ne_empty op,
      "Illegal instruction: ", "", by unfold illegalMsg; rw [String.append_empty]⟩
  · rw [if_neg (by omega), if_neg (by omega), if_neg (by omega),
      if_neg (by omega), if_neg (by omega),
      if_neg (fun hc => absurd hc.1 (by omega)), if_neg (by omega),
      if_neg (by omega), if_neg (by omega),
      if_neg (fun hc => absurd hc.2 hn), if_neg (by omega),
      if_neg (by omega), if_neg (by omega),
      if_neg (fun hc => absurd hc.1 (by omega)), if_neg (by omega),
      if_neg (by omega), if_neg (by omega)]
    exact ⟨_, rfl, rfl, illegalMsg op, rfl, illegalMsg_ne_empty op,
      "Illegal instruction: ", "", by unfold illegalMsg; rw [String.append_empty]⟩
  · rw [if_neg (by omega), if_neg (by omega), if_neg (by omega),
      if_neg (by omega), if_neg (by omega),
      if_neg (fun hc => absurd hc.1 (by omega)), if_neg (by omega),
      if_neg (by omega), if_neg (by omega),
      if_neg (fun hc => absurd hc.1 (by omega)), if_neg (by omega),
      if_neg (by omega), if_neg (by omega),
      if_neg (fun hc => absurd hc.1 (by omega)), if_neg (by omega),
      if_pos ht, if_neg h9E, if_neg hA1]
    exact ⟨_, rfl, rfl, illegalMsg op, rfl, illegalMsg_ne_empty op,
      "Illegal instruction: ", "", by unfold illegalMsg; rw [String.append_empty]⟩
  · rw [if_neg (by omega), if_neg (by omega), if_neg (by omega),
      if_neg (by omega), if_neg (by omega),
      if_neg (fun hc => absurd hc.1 (by omega)), if_neg (by omega),
      if_neg (by omega), if_neg (by omega),
      if_neg (fun hc => absurd hc.1 (by omega)), if_neg (by omega),
      if_neg (by omega), if_neg (by omega),
      if_neg (fun hc => absurd hc.1 (by omega)), if_neg (by omega),
      if_neg (by omega),
      if_pos ht, if_neg h07, if_neg h0A, if_neg h15, if_neg h18, if_neg h1E,
      if_neg h29, if_neg h30, if_neg h33, if_neg h55, if_neg h65, if_neg h75,
      if_neg h85]
    exact ⟨_, rfl, rfl, illegalMsg op, rfl, illegalMsg_ne_empty op,
      "Illegal instruction: ", "", by unfold illegalMsg; rw [String.append_empty]⟩

set_option synthInstance.maxSize 2000 in
set_option synthInstance.maxHeartbeats 1000000 in
/-- Witness for `c5_illegal_opcode_halts`: opcode 0xFFFF (unknown class-F
low byte) halts a fresh interpreter with a diagnostic containing "FFFF". -/
theorem c5_illegal_opcode_halts_witness :
    ∃ s', executeInstruction Chip8.chip8 0xFFFF 0 = some s' ∧
      s'.running = false ∧
      ∃ m, s'.halt_message = some m ∧ m ≠ "" ∧
        ∃ pre post, m = pre ++ toHex4 0xFFFF ++ post :=
  c5_illegal_opcode_halts Chip8.chip8 0xFFFF 0 rfl (by unfold isIllegal; decide)

/-! ## C7 -- draw-sprite XOR toggling

The Dxyn cell loop XORs sprite bits into the pixel buffer one `set` at a
time. The lemmas below recast the loops as a left fold of single-pixel
toggles over the list of touched display indices (`spriteTargets`), show
those indices are pairwise distinct in low-resolution 8-wide draws, and
derive the XOR identity: toggling the same distinct index set twice is the
identity on the buffer. -/

/-! ### Draw-sprite toggling -/

lemma length_foldl_toggle (T : List Nat) (px : List Bool) :
    (T.foldl togglePix px).length = px.length := by
  induction T generalizing px with
  | nil => rfl
  | cons a rest ih =>
    rw [List.foldl_cons, ih, togglePix, List.length_set]

lemma getD_foldl_toggle_not_mem (T : List Nat) (px : List Bool) (t : Nat)
    (ht : t ∉ T) : (T.foldl togglePix px).getD t false = px.getD t false := by
  induction T generalizing px with
  | nil => rfl
  | cons a rest ih =>
    rw [List.foldl_cons, ih _ (fun hm => ht (List.mem_cons_of_mem a hm)),
      togglePix, getD_set_ne]
    intro he
    exact ht (he ▸ List.mem_cons_self a rest)

lemma getD_foldl_toggle_mem (T : List Nat) (px : List Bool) (t : Nat)
    (hnd : T.Nodup) (ht : t ∈ T) (hlt : t < px.length) :
    (T.foldl togglePix px).getD t false = !(px.getD t false) := by
  induction T generalizing px with
  | nil => cases ht
  | cons a rest ih =>
    rw [List.nodup_cons] at hnd
    rw [List.foldl_cons]
    rcases List.mem_cons.mp ht with he | hm
    · subst he
      rw [getD_foldl_toggle_not_mem rest _ t hnd.1, togglePix,
        getD_set_self _ _ _ _ hlt]
    · rw [ih _ hnd.2 hm (by rw [togglePix, List.length_set]; exact hlt),
        togglePix, getD_set_ne]
      intro he
      exact hnd.1 (he ▸ hm)

lemma foldl_toggle_twice (T : List Nat) (px : List Bool) (hnd : T.Nodup) :
    T.foldl togglePix (T.foldl togglePix px) = px := by
  have hlen1 : (T.foldl togglePix px).length = px.length := length_foldl_toggle T px
  apply List.ext_getElem (by rw [length_foldl_toggle, hlen1])
  intro i h1 h2
  rw [← List.getD_eq_getElem _ false h1, ← List.getD_eq_getElem _ false h2]
  by_cases hm : i ∈ T
  · rw [getD_foldl_toggle_mem T _ i hnd hm (by rw [hlen1]; exact h2),
      getD_foldl_toggle_mem T px i hnd hm h2, Bool.not_not]
  · rw [getD_foldl_toggle_not_mem T _ i hm, getD_foldl_toggle_not_mem T px i hm]

lemma any_getD_foldl_disjoint (T S : List Nat) (px : List Bool)
    (h : ∀ t ∈ T, t ∉ S) :
    (T.any fun t => (S.foldl togglePix px).getD t false) =
      T.any fun t => px.getD t false := by
  induction T with
  | nil => rfl
  | cons a rest ih =>
    rw [List.any_cons, List.any_cons,
      getD_foldl_toggle_not_mem S px a (h a (List.mem_cons_self a rest)),
      ih fun t hm => h t (List.mem_cons_of_mem a hm)]

lemma get?_eq_some_getD {α : Type} (l : List α) (i : Nat) (d : α)
    (h : i < l.length) : l.get? i = some (l.getD i d) := by
  rw [List.get?_eq_getElem?, List.getElem?_eq_getElem h, List.getD_eq_getElem l d h]

lemma drawCells_eq_toggle (q : Quirks) (hq : q.edge_clipping = false)
    (w h dx dy row sb : Nat) (cells : List Nat) (px : List Bool) (ov : Bool)
    (hlt : ∀ c ∈ cells, drawTarget w h dx dy row c < px.length)
    (hnd : (cells.map (drawTarget w h dx dy row)).Nodup) :
    drawCells q w h dx dy row sb 0 cells (px, ov) =
      some (((cells.filter (spriteBit sb)).map (drawTarget w h dx dy row)).foldl
          togglePix px,
        ov || ((cells.filter (spriteBit sb)).map (drawTarget w h dx dy row)).any
          fun t => px.getD t false) := by
  induction cells generalizing px ov with
  | nil => simp [drawCells]
  | cons c rest ih =>
    rw [List.map_cons, List.nodup_cons] at hnd
    have hltc : drawTarget w h dx dy row c < px.length :=
      hlt c (List.mem_cons_self c rest)
    rw [drawCells, if_neg (by simp [hq])]
    by_cases hb : sb &&& (128 >>> (c - 0)) ≠ 0
    · rw [if_pos hb,
        get?_eq_some_getD px ((dx + c) % w + (dy + row) % h * w) false hltc]
      have hnm : drawTarget w h dx dy row c ∉
          (rest.filter (spriteBit sb)).map (drawTarget w h dx dy row) := by
        intro hm
        rcases List.mem_map.mp hm with ⟨c2, hc2, he⟩
        exact hnd.1 (List.mem_map.mpr ⟨c2, List.mem_of_mem_filter hc2, he⟩)
      have hr := ih (px.set (drawTarget w h dx dy row c)
          (!(px.getD (drawTarget w h dx dy row c) false)))
        (ov || px.getD (drawTarget w h dx dy row c) false)
        (by
          rw [List.length_set]
          exact fun c2 hm => hlt c2 (List.mem_cons_of_mem c hm))
        hnd.2
      show drawCells q w h dx dy row sb 0 rest
          (px.set (drawTarget w h dx dy row c)
            (!(px.getD (drawTarget w h dx dy row c) false)),
           ov || px.getD (drawTarget w h dx dy row c) false) = _
      rw [hr, List.filter_cons_of_pos (show spriteBit sb c = true from decide_eq_true hb),
        List.map_cons,
        List.foldl_cons, List.any_cons]
      have hany : (((rest.filter (spriteBit sb)).map
            (drawTarget w h dx dy row)).any fun t =>
          (px.set (drawTarget w h dx dy row c)
            (!(px.getD (drawTarget w h dx dy row c) false))).getD t false) =
          ((rest.filter (spriteBit sb)).map (drawTarget w h dx dy row)).any
            fun t => px.getD t false :=
        any_getD_foldl_disjoint _ [drawTarget w h dx dy row c] px
          (fun t hm he => hnm ((List.mem_singleton.mp he) ▸ hm))
      rw [hany, togglePix, Bool.or_assoc]
    · rw [if_neg hb]
      rw [ih px ov (fun c2 hm => hlt c2 (List.mem_cons_of_mem c hm)) hnd.2,
        List.filter_cons_of_neg
          (show ¬spriteBit sb c = true from fun hc => hb (of_decide_eq_true hc))]

lemma mem_rowTargets_mem_grid (w h dx dy row sb t : Nat)
    (hm : t ∈ rowTargets w h dx dy row sb) :
    t ∈ (List.range' 0 8).map (drawTarget w h dx dy row) := by
  rcases List.mem_map.mp hm with ⟨c, hc, he⟩
  exact List.mem_map.mpr ⟨c, List.mem_of_mem_filter hc, he⟩

lemma drawRows8_eq_toggle (q : Quirks) (hq : q.edge_clipping = false)
    (w h dx dy : Nat) (ram : List Nat) (iReg : Nat) (rows : List Nat)
    (px : List Bool) (ov : Bool)
    (hram : ∀ r ∈ rows, iReg + r < ram.length)
    (hlt : ∀ r ∈ rows, ∀ c ∈ List.range' 0 8, drawTarget w h dx dy r c < px.length)
    (hnd : (rows.flatMap fun r => (List.range' 0 8).map (drawTarget w h dx dy r)).Nodup) :
    drawRows8 q w h dx dy ram iReg rows (px, ov) =
      some ((rows.flatMap fun r =>
          rowTargets w h dx dy r (ram.getD (iReg + r) 0)).foldl togglePix px,
        ov || (rows.flatMap fun r =>
          rowTargets w h dx dy r (ram.getD (iReg + r) 0)).any
            fun t => px.getD t false) := by
  induction rows generalizing px ov with
  | nil => simp [drawRows8]
  | cons r rest ih =>
    rw [List.flatMap_cons, List.nodup_append] at hnd
    obtain ⟨hnd1, hnd2, hdisj⟩ := hnd
    have hrm : r ∈ r :: rest := List.mem_cons_self r rest
    rw [drawRows8, get?_eq_some_getD ram (iReg + r) 0 (hram r hrm)]
    show (match drawCells q w h dx dy r (ram.getD (iReg + r) 0) 0
        (List.range' 0 8) (px, ov) with
      | none => none
      | some acc2 => drawRows8 q w h dx dy ram iReg rest acc2) = _
    rw [drawCells_eq_toggle q hq w h dx dy r (ram.getD (iReg + r) 0)
        (List.range' 0 8) px ov (hlt r hrm) hnd1]
    have hr := ih
      ((rowTargets w h dx dy r (ram.getD (iReg + r) 0)).foldl togglePix px)
      (ov || (rowTargets w h dx dy r (ram.getD (iReg + r) 0)).any
        fun t => px.getD t false)
      (fun r2 hm => hram r2 (List.mem_cons_of_mem r hm))
      (by
        rw [length_foldl_toggle]
        exact fun r2 hm => hlt r2 (List.mem_cons_of_mem r hm))
      hnd2
    show drawRows8 q w h dx dy ram iReg rest
      ((rowTargets w h dx dy r (ram.getD (iReg + r) 0)).foldl togglePix px,
       ov || (rowTargets w h dx dy r (ram.getD (iReg + r) 0)).any
         fun t => px.getD t false) = _
    rw [hr, List.flatMap_cons, List.foldl_append, List.any_append]
    have hany : ((rest.flatMap fun r2 =>
          rowTargets w h dx dy r2 (ram.getD (iReg + r2) 0)).any
        fun t => ((rowTargets w h dx dy r
            (ram.getD (iReg + r) 0)).foldl togglePix px).getD t false) =
        (rest.flatMap fun r2 =>
          rowTargets w h dx dy r2 (ram.getD (iReg + r2) 0)).any
            fun t => px.getD t false := by
      apply any_getD_foldl_disjoint
      intro t hm hmr
      rcases List.mem_flatMap.mp hm with ⟨r2, hr2, hmr2⟩
      exact hdisj (mem_rowTargets_mem_grid w h dx dy r _ t hmr)
        (List.mem_flatMap.mpr ⟨r2, hr2, mem_rowTargets_mem_grid w h dx dy r2 _ t hmr2⟩)
    rw [hany, Bool.or_assoc]

lemma drawTarget_lt (dx dy r c : Nat) : drawTarget 64 32 dx dy r c < 2048 := by
  unfold drawTarget
  have h1 : (dx + c) % 64 < 64 := Nat.mod_lt _ (by omega)
  have h2 : (dy + r) % 32 < 32 := Nat.mod_lt _ (by omega)
  omega

lemma drawTarget_inj (dx dy r1 c1 r2 c2 : Nat) (hr1 : r1 < 32) (hr2 : r2 < 32)
    (hc1 : c1 < 8) (hc2 : c2 < 8)
    (he : drawTarget 64 32 dx dy r1 c1 = drawTarget 64 32 dx dy r2 c2) :
    r1 = r2 ∧ c1 = c2 := by
  unfold drawTarget at he
  omega

lemma nodup_gridTargets (dx dy n : Nat) (hn : n ≤ 32) :
    ((List.range' 0 n).flatMap fun r =>
      (List.range' 0 8).map (drawTarget 64 32 dx dy r)).Nodup := by
  rw [List.nodup_flatMap]
  constructor
  · intro r hr
    apply List.Nodup.map_on
    · intro c1 hc1 c2 hc2 he
      have hrlt : r < 32 := by
        rw [List.mem_range'_1] at hr
        omega
      rw [List.mem_range'_1] at hc1 hc2
      exact (drawTarget_inj dx dy r c1 r c2 hrlt hrlt (by omega) (by omega) he).2
    · decide
  · have hnd : (List.range' 0 n).Nodup := by
      rw [← List.range_eq_range']
      exact List.nodup_range n
    apply List.Pairwise.imp_of_mem _ hnd
    intro r1 r2 hr1 hr2 hne t hm1 hm2
    rw [List.mem_range'_1] at hr1 hr2
    rcases List.mem_map.mp hm1 with ⟨c1, hc1, he1⟩
    rcases List.mem_map.mp hm2 with ⟨c2, hc2, he2⟩
    rw [List.mem_range'_1] at hc1 hc2
    exact hne (drawTarget_inj dx dy r1 c1 r2 c2 (by omega) (by omega)
      (by omega) (by omega) (he1.trans he2.symm)).1

lemma spriteTargets_sublist (w h dx dy : Nat) (ram : List Nat) (iReg : Nat)
    (rows : List Nat) :
    List.Sublist
      (rows.flatMap fun r => rowTargets w h dx dy r (ram.getD (iReg + r) 0))
      (rows.flatMap fun r => (List.range' 0 8).map (drawTarget w h dx dy r)) := by
  induction rows with
  | nil => exact List.Sublist.refl _
  | cons r rest ih =>
    rw [List.flatMap_cons, List.flatMap_cons]
    exact List.Sublist.append
      (List.Sublist.map _ (List.filter_sublist _)) ih

lemma nodup_spriteTargets (dx dy : Nat) (ram : List Nat) (iReg n : Nat)
    (hn : n ≤ 32) : (spriteTargets 64 32 dx dy ram iReg n).Nodup :=
  ((spriteTargets_sublist 64 32 dx dy ram iReg (List.range' 0 n)).nodup
    (nodup_gridTargets dx dy n hn))

lemma mem_spriteTargets_lt (dx dy : Nat) (ram : List Nat) (iReg n t : Nat)
    (hm : t ∈ spriteTargets 64 32 dx dy ram iReg n) : t < 2048 := by
  unfold spriteTargets at hm
  rcases List.mem_flatMap.mp hm with ⟨r, hr, hmr⟩
  rcases List.mem_map.mp (mem_rowTargets_mem_grid 64 32 dx dy r _ t hmr) with
    ⟨c, hc, he⟩
  exact he ▸ drawTarget_lt dx dy r c

lemma any_getD_replicate_false (T : List Nat) (n : Nat) :
    (T.any fun t => (List.replicate n false).getD t false) = false := by
  rw [List.any_eq_false]
  intro t _
  rw [getD_replicate_same]
  exact Bool.false_ne_true

/-- Reaching the low-resolution Dxyn arm: with a class-D opcode of nonzero
height, no SUPER-CHIP 16x16 dispatch, no vblank deferral and `highres`
off, `executeArms` is exactly the 64x32 row loop followed by the
display/VF/vblank writeback. -/
lemma executeArms_draw_low (s : Chip8) (op rnd : Nat)
    (hD : opTop op = 0xD) (hnib : opNib op ≠ 0)
    (hvb : ¬(s.quirks.wait_for_vblank = true ∧ s.vblank = false))
    (hres : s.highres = false) :
    executeArms s op rnd =
      (drawRows8 s.quirks 64 32
          (s.V.getD (opX op) 0) (s.V.getD (opY op) 0) s.memory.ram s.I
          (List.range' 0 (opNib op)) (s.display.pixels, false)).map fun r =>
        (({ s with
            display := ⟨r.1⟩
            V := s.V.set 0xF (if r.2 then 1 else 0)
            vblank := false } : Chip8), false) := by
  unfold executeArms
  rw [if_neg (by omega), if_neg (by omega), if_neg (by omega),
    if_neg (by omega), if_neg (by omega),
    if_neg (fun hc => absurd hc.1 (by omega)), if_neg (by omega),
    if_neg (by omega), if_neg (by omega),
    if_neg (fun hc => absurd hc.1 (by omega)), if_neg (by omega),
    if_neg (by omega), if_neg (by omega),
    if_neg (fun hc => absurd hc.2.2 hnib), if_pos hD, if_neg hvb]
  have h64 : (if s.highres then (128 : Nat) else 64) = 64 := by
    rw [hres]
    decide
  have h32 : (if s.highres then (64 : Nat) else 32) = 32 := by
    rw [hres]
    decide
  rw [h64, h32]

/-- A complete low-resolution Dxyn step: the pixel buffer becomes the fold
of single-pixel toggles over `spriteTargets`, VF records whether any target
pixel was already lit, `vblank` is consumed, and the program counter
auto-advances. -/
lemma executeInstruction_draw_lowres (s : Chip8) (op rnd : Nat)
    (hawait : s.awaiting_key = false)
    (hD : opTop op = 0xD) (hnib : opNib op ≠ 0)
    (hclip : s.quirks.edge_clipping = false)
    (hvw : s.quirks.wait_for_vblank = false)
    (hres : s.highres = false)
    (hram : ∀ r, r < opNib op → s.I + r < s.memory.ram.length)
    (hlen : s.display.pixels.length = 2048) :
    executeInstruction s op rnd = some
      (Chip8.increment_program_counter
        { s with
          display := ⟨(spriteTargets 64 32 (s.V.getD (opX op) 0)
            (s.V.getD (opY op) 0) s.memory.ram s.I (opNib op)).foldl togglePix
            s.display.pixels⟩
          V := s.V.set 0xF
            (if (spriteTargets 64 32 (s.V.getD (opX op) 0) (s.V.getD (opY op) 0)
                s.memory.ram s.I (opNib op)).any
                (fun t => s.display.pixels.getD t false) then 1 else 0)
          vblank := false }) := by
  unfold executeInstruction
  rw [if_neg (by simp [hawait]),
    executeArms_draw_low s op rnd hD hnib (by simp [hvw]) hres,
    drawRows8_eq_toggle s.quirks hclip 64 32 (s.V.getD (opX op) 0)
      (s.V.getD (opY op) 0) s.memory.ram s.I (List.range' 0 (opNib op))
      s.display.pixels false
      (fun r hr => hram r (by rw [List.mem_range'_1] at hr; omega))
      (fun r _ c _ => by rw [hlen]; exact drawTarget_lt _ _ r c)
      (nodup_gridTargets _ _ _ (by have := opNib_lt op; omega)),
    Option.map_some', Option.map_some', Bool.false_or]
  unfold spriteTargets
  rfl

/-- C7: double-draw XOR identity, corrected. On a clear low-resolution
display, drawing a non-empty sprite twice at the same coordinates turns
every affected pixel back off, but the flag register is 0 after the first
draw (no pixels were lit yet) and 1 only after the second; drawing a
second sprite whose target pixels are disjoint from the first leaves the
flag register at 0. -/
theorem c7_draw_xor_restore (s : Chip8) (op rnd : Nat)
    (hawait : s.awaiting_key = false)
    (hD : opTop op = 0xD) (hnib : opNib op ≠ 0)
    (hx : opX op ≠ 0xF) (hy : opY op ≠ 0xF)
    (hclip : s.quirks.edge_clipping = false)
    (hvw : s.quirks.wait_for_vblank = false)
    (hres : s.highres = false)
    (hVlen : s.V.length = 16)
    (hdisp : s.display.pixels = List.replicate 2048 false)
    (hram : ∀ r, r < opNib op → s.I + r < s.memory.ram.length)
    (hne : spriteTargets 64 32 (s.V.getD (opX op) 0) (s.V.getD (opY op) 0)
      s.memory.ram s.I (opNib op) ≠ []) :
    ∃ s1 s2, executeInstruction s op rnd = some s1 ∧
      s1.V.getD 0xF 0 = 0 ∧
      executeInstruction s1 op rnd = some s2 ∧
      s2.V.getD 0xF 0 = 1 ∧
      s2.display.pixels = s.display.pixels ∧
      ∀ op2, opTop op2 = 0xD → opNib op2 ≠ 0 →
        opX op2 ≠ 0xF → opY op2 ≠ 0xF →
        (∀ r, r < opNib op2 → s.I + r < s.memory.ram.length) →
        (∀ t ∈ spriteTargets 64 32 (s.V.getD (opX op2) 0)
            (s.V.getD (opY op2) 0) s.memory.ram s.I (opNib op2),
          t ∉ spriteTargets 64 32 (s.V.getD (opX op) 0)
            (s.V.getD (opY op) 0) s.memory.ram s.I (opNib op)) →
        ∃ s3, executeInstruction s1 op2 rnd = some s3 ∧
          s3.V.getD 0xF 0 = 0 := by
  have hlen0 : s.display.pixels.length = 2048 := by
    rw [hdisp, List.length_replicate]
  have hnd : (spriteTargets 64 32 (s.V.getD (opX op) 0) (s.V.getD (opY op) 0)
      s.memory.ram s.I (opNib op)).Nodup :=
    nodup_spriteTargets _ _ _ _ _ (by have := opNib_lt op; omega)
  have hbound : ∀ t ∈ spriteTargets 64 32 (s.V.getD (opX op) 0)
      (s.V.getD (opY op) 0) s.memory.ram s.I (opNib op),
      t < s.display.pixels.length := by
    intro t hm
    rw [hlen0]
    exact mem_spriteTargets_lt _ _ _ _ _ _ hm
  have h1 := executeInstruction_draw_lowres s op rnd hawait hD hnib hclip hvw
    hres hram hlen0
  have hany1 : ((spriteTargets 64 32 (s.V.getD (opX op) 0)
      (s.V.getD (opY op) 0) s.memory.ram s.I (opNib op)).any
        fun t => s.display.pixels.getD t false) = false := by
    rw [hdisp]
    exact any_getD_replicate_false _ _
  rw [hany1] at h1
  obtain ⟨s1, hs1, h1⟩ : ∃ s1, s1 = Chip8.increment_program_counter
      { s with
        display := ⟨(spriteTargets 64 32 (s.V.getD (opX op) 0)
          (s.V.getD (opY op) 0) s.memory.ram s.I (opNib op)).foldl togglePix
          s.display.pixels⟩
        V := s.V.set 0xF (if false then 1 else 0)
        vblank := false } ∧ executeInstruction s op rnd = some s1 :=
    ⟨_, rfl, h1⟩
  have hVx1 : s1.V.getD (opX op) 0 = s.V.getD (opX op) 0 := by
    rw [hs1]
    exact getD_set_ne _ _ _ _ _ fun he => hx he.symm
  have hVy1 : s1.V.getD (opY op) 0 = s.V.getD (opY op) 0 := by
    rw [hs1]
    exact getD_set_ne _ _ _ _ _ fun he => hy he.symm
  have hmem1 : s1.memory = s.memory := by
    rw [hs1]
    rfl
  have hI1 : s1.I = s.I := by
    rw [hs1]
    rfl
  have hq1 : s1.quirks = s.quirks := by
    rw [hs1]
    rfl
  have hres1 : s1.highres = false := by
    rw [hs1]
    exact hres
  have hawait1 : s1.awaiting_key = false := by
    rw [hs1]
    exact hawait
  have hVlen1 : s1.V.length = 16 := by
    rw [hs1]
    show (s.V.set 0xF (if (false : Bool) then (1 : Nat) else 0)).length = 16
    rw [List.length_set, hVlen]
  have hpx1 : s1.display.pixels = (spriteTargets 64 32 (s.V.getD (opX op) 0)
      (s.V.getD (opY op) 0) s.memory.ram s.I (opNib op)).foldl togglePix
      s.display.pixels := by
    rw [hs1]
    rfl
  have hlen1 : s1.display.pixels.length = 2048 := by
    rw [hpx1, length_foldl_toggle, hlen0]
  have hclip1 : s1.quirks.edge_clipping = false := by
    rw [hq1]
    exact hclip
  have hvw1 : s1.quirks.wait_for_vblank = false := by
    rw [hq1]
    exact hvw
  have hram1 : ∀ r, r < opNib op → s1.I + r < s1.memory.ram.length := by
    rw [hI1, hmem1]
    exact hram
  have h2 := executeInstruction_draw_lowres s1 op rnd hawait1 hD hnib hclip1
    hvw1 hres1 hram1 hlen1
  rw [hVx1, hVy1, hmem1, hI1, hpx1] at h2
  have hfold2 : (spriteTargets 64 32 (s.V.getD (opX op) 0)
      (s.V.getD (opY op) 0) s.memory.ram s.I (opNib op)).foldl togglePix
      ((spriteTargets 64 32 (s.V.getD (opX op) 0) (s.V.getD (opY op) 0)
        s.memory.ram s.I (opNib op)).foldl togglePix s.display.pixels) =
      s.display.pixels :=
    foldl_toggle_twice _ _ hnd
  have hany2 : ((spriteTargets 64 32 (s.V.getD (opX op) 0)
      (s.V.getD (opY op) 0) s.memory.ram s.I (opNib op)).any
        fun t => ((spriteTargets 64 32 (s.V.getD (opX op) 0)
          (s.V.getD (opY op) 0) s.memory.ram s.I (opNib op)).foldl togglePix
          s.display.pixels).getD t false) = true := by
    obtain ⟨t0, ht0⟩ := List.exists_mem_of_ne_nil _ hne
    rw [List.any_eq_true]
    refine ⟨t0, ht0, ?_⟩
    rw [getD_foldl_toggle_mem _ _ t0 hnd ht0 (hbound t0 ht0), hdisp,
      getD_replicate_same]
    rfl
  rw [hfold2, hany2] at h2
  refine ⟨s1, _, h1, ?_, h2, ?_, ?_, ?_⟩
  · rw [hs1]
    show (s.V.set 0xF (if (false : Bool) then (1 : Nat) else 0)).getD 0xF 0 = 0
    rw [getD_set_self _ _ _ _ (by rw [hVlen]; omega)]
    rfl
  · show (s1.V.set 0xF (if (true : Bool) then (1 : Nat) else 0)).getD 0xF 0 = 1
    rw [getD_set_self _ _ _ _ (by rw [hVlen1]; omega)]
    rfl
  · show s.display.pixels = s.display.pixels
    rfl
  · intro op2 hD2 hnib2 hx2 hy2 hram2 hdisj
    have hVx2 : s1.V.getD (opX op2) 0 = s.V.getD (opX op2) 0 := by
      rw [hs1]
      exact getD_set_ne _ _ _ _ _ fun he => hx2 he.symm
    have hVy2 : s1.V.getD (opY op2) 0 = s.V.getD (opY op2) 0 := by
      rw [hs1]
      exact getD_set_ne _ _ _ _ _ fun he => hy2 he.symm
    have hram2c : ∀ r, r < opNib op2 → s1.I + r < s1.memory.ram.length := by
      rw [hI1, hmem1]
      exact hram2
    have h3 := executeInstruction_draw_lowres s1 op2 rnd hawait1 hD2 hnib2
      hclip1 hvw1 hres1 hram2c hlen1
    rw [hVx2, hVy2, hmem1, hI1, hpx1] at h3
    have hany3 : ((spriteTargets 64 32 (s.V.getD (opX op2) 0)
        (s.V.getD (opY op2) 0) s.memory.ram s.I (opNib op2)).any
          fun t => ((spriteTargets 64 32 (s.V.getD (opX op) 0)
            (s.V.getD (opY op) 0) s.memory.ram s.I (opNib op)).foldl togglePix
            s.display.pixels).getD t false) = false := by
      rw [any_getD_foldl_disjoint _ _ s.display.pixels hdisj, hdisp]
      exact any_getD_replicate_false _ _
    rw [hany3] at h3
    refine ⟨_, h3, ?_⟩
    show (s1.V.set 0xF (if (false : Bool) then (1 : Nat) else 0)).getD 0xF 0 = 0
    rw [getD_set_self _ _ _ _ (by rw [hVlen1]; omega)]
    rfl

/-- C7 counterexample: the first draw of a non-empty sprite on the fresh
(clear) display reports no collision — the flag register is 0, not 1.
Executing D011 on a fresh interpreter (I = 0, so the sprite row is the
font byte 0xF0) leaves V15 = 0. -/
theorem c7_first_draw_flag_cex :
    (executeInstruction Chip8.chip8 0xD011 0).map (fun t => t.V.getD 0xF 0) =
      some 0 ∧ (0 : Nat) ≠ 1 := by
  constructor
  · decide
  · decide

/-- Witness for `c7_draw_xor_restore`: a fresh interpreter with the Octo
quirk preset (no edge clipping, no vblank wait) drawing the one-row font
sprite 0xF0 at (0, 0) via D011. -/
theorem c7_draw_xor_restore_witness :
    ∃ s1 s2, executeInstruction
        { Chip8.chip8 with quirks := Quirks.octo_chip } 0xD011 0 = some s1 ∧
      s1.V.getD 0xF 0 = 0 ∧
      executeInstruction s1 0xD011 0 = some s2 ∧
      s2.V.getD 0xF 0 = 1 ∧
      s2.display.pixels =
        { Chip8.chip8 with quirks := Quirks.octo_chip }.display.pixels ∧
      ∀ op2, opTop op2 = 0xD → opNib op2 ≠ 0 →
        opX op2 ≠ 0xF → opY op2 ≠ 0xF →
        (∀ r, r < opNib op2 →
          { Chip8.chip8 with quirks := Quirks.octo_chip }.I + r <
            { Chip8.chip8 with quirks := Quirks.octo_chip }.memory.ram.length) →
        (∀ t ∈ spriteTargets 64 32
            ({ Chip8.chip8 with quirks := Quirks.octo_chip }.V.getD (opX op2) 0)
            ({ Chip8.chip8 with quirks := Quirks.octo_chip }.V.getD (opY op2) 0)
            { Chip8.chip8 with quirks := Quirks.octo_chip }.memory.ram
            { Chip8.chip8 with quirks := Quirks.octo_chip }.I (opNib op2),
          t ∉ spriteTargets 64 32
            ({ Chip8.chip8 with quirks := Quirks.octo_chip }.V.getD
              (opX 0xD011) 0)
            ({ Chip8.chip8 with quirks := Quirks.octo_chip }.V.getD
              (opY 0xD011) 0)
            { Chip8.chip8 with quirks := Quirks.octo_chip }.memory.ram
            { Chip8.chip8 with quirks := Quirks.octo_chip }.I (opNib 0xD011)) →
        ∃ s3, executeInstruction s1 op2 0 = some s3 ∧
          s3.V.getD 0xF 0 = 0 :=
  c7_draw_xor_restore { Chip8.chip8 with quirks := Quirks.octo_chip } 0xD011 0
    rfl (by decide) (by decide) (by decide) (by decide) rfl rfl rfl
    (by decide) rfl
    (by
      intro r hr
      have hn1 : opNib 0xD011 = 1 := by decide
      rw [hn1] at hr
      show (0 : Nat) + r < Memory.new.ram.length
      rw [memory_new_ram_length]
      omega)
    (by decide)
